import Mathlib

/-! DuplicateSelected.cpp : duplication of timeline objects at equal intervals

A shallow embedding of `DuplicateOneObject` and `DoDuplicateCallback`
(src/DuplicateSelected.cpp) together with the parameter set-up of `WndProc`.

* The host (`EDIT_SECTION`) is a record of functions over an abstract host
  state `σ`; `create_object_from_alias` returns the new handle and the next
  host state, every read takes the current host state.
* Pointers (`OBJECT_HANDLE`) are natural numbers, `0` being `nullptr`.
  The alias data (`LPCSTR`) is `Option String`, `none` being `nullptr`.
* Every C++ `int` operation goes through the function `norm` of an `IntArith`:
  `intExact` computes over the mathematical integers, `int32` wraps every
  result into the 32-bit two's complement range.
* Every loop consumes one unit of `fuel` per evaluation of its loop test; a
  loop that has no fuel left yields `none`.
* Each creation request is recorded in the ghost field `Run.calls`.

The code runs on `int32`. The development first establishes what the runs
compute over exact integers (with an explicit amount of fuel that makes the run
return), then that the 32-bit code computes the same run while no value leaves
the range of `int` (`DuplicateOneObject_int32_eq_exact`), and finally evaluates
the 32-bit code at inputs where an `int` overflows: the loops whose exit test
no `int` satisfies (`byCountLoop_int32_stuck`, `byLimitLoop_int32_stuck`) and the
length `end - start` that wraps.
-/

namespace DuplicateSelected

/-! ## Integer arithmetic -/

/-- Interpretation of the C++ type `int`: `norm` is applied to the
mathematical result of every arithmetic operation. -/
structure IntArith where
  norm : Int → Int

/-- Wrap an integer into the range of a 32-bit two's complement `int`. -/
def wrap32 (x : Int) : Int := (x + 2147483648) % 4294967296 - 2147483648

/-- Unbounded integers: no operation overflows. -/
def intExact : IntArith := ⟨fun x => x⟩

/-- The 32-bit `int` of the target platform (x64 Windows), wrapping on overflow. -/
def int32 : IntArith := ⟨wrap32⟩

/-! ## Data model -/

/-- A host object pointer; `0` is `nullptr`. -/
abbrev OBJECT_HANDLE := Nat

/-- The struct `OBJECT_LAYER_FRAME` of plugin2.h: layer, first and last frame. -/
structure OBJECT_LAYER_FRAME where
  layer : Int
  start : Int
  «end» : Int
  deriving DecidableEq, Repr

/-- The struct `DuplicateContext`, with the default member initialisers of
the source. -/
structure DuplicateContext where
  interval : Int := 0
  byCount : Bool := true
  copies : Int := 1
  limitFrame : Int := 0
  stopOnFail : Bool := false
  totalCreated : Int := 0
  totalFailed : Int := 0
  objCount : Int := 0
  noAlias : Int := 0
  diagMsg : String := ""
  deriving DecidableEq, Repr

/-- One call of `create_object_from_alias(alias, layer, frame, length)`. -/
structure CreateCall where
  aliasData : String
  layer : Int
  frame : Int
  length : Int
  deriving DecidableEq, Repr

/-- The functions of `EDIT_SECTION` used by the plugin, over the host state `σ`.
`info` tells whether the pointer `es->info` is non-null. -/
structure EDIT_SECTION (σ : Type) where
  info : Bool
  get_object_layer_frame : σ → OBJECT_HANDLE → OBJECT_LAYER_FRAME
  get_object_alias : σ → OBJECT_HANDLE → Option String
  create_object_from_alias : σ → String → Int → Int → Int → OBJECT_HANDLE × σ
  get_selected_object_num : σ → Int
  get_selected_object : σ → Int → OBJECT_HANDLE
  get_focus_object : σ → OBJECT_HANDLE

/-- The state threaded through a run: the context, the host state and the
creation requests issued so far (oldest first). -/
structure Run (σ : Type) where
  ctx : DuplicateContext
  host : σ
  calls : List CreateCall

/-! ## DuplicateOneObject -/

/-- The loop `for (int i = 1; i <= std::max(0, ctx.copies); i++)` of
`DuplicateOneObject`, entered at the loop test with the current `i`. -/
def byCountLoop {σ : Type} (A : IntArith) (es : EDIT_SECTION σ) (aliasData : String)
    (lf : OBJECT_LAYER_FRAME) (len step : Int) : Nat → Int → Run σ → Option (Run σ)
  | 0, _, _ => none
  | fuel + 1, i, r =>
    if i ≤ max 0 r.ctx.copies then
      let newStart := A.norm (lf.start + A.norm (step * i))
      let created := es.create_object_from_alias r.host aliasData lf.layer newStart len
      let calls := r.calls ++ [⟨aliasData, lf.layer, newStart, len⟩]
      if created.1 ≠ 0 then
        byCountLoop A es aliasData lf len step fuel (A.norm (i + 1))
          ⟨{ r.ctx with totalCreated := A.norm (r.ctx.totalCreated + 1) }, created.2, calls⟩
      else
        let ctx := { r.ctx with totalFailed := A.norm (r.ctx.totalFailed + 1) }
        if ctx.stopOnFail then some ⟨ctx, created.2, calls⟩
        else byCountLoop A es aliasData lf len step fuel (A.norm (i + 1)) ⟨ctx, created.2, calls⟩
    else some r

/-- The loop `for (int i = 1;; i++)` of `DuplicateOneObject`, entered at the
top of the body with the current `i`. -/
def byLimitLoop {σ : Type} (A : IntArith) (es : EDIT_SECTION σ) (aliasData : String)
    (lf : OBJECT_LAYER_FRAME) (len step : Int) : Nat → Int → Run σ → Option (Run σ)
  | 0, _, _ => none
  | fuel + 1, i, r =>
    let newStart := A.norm (lf.start + A.norm (step * i))
    if newStart > r.ctx.limitFrame then some r
    else
      let created := es.create_object_from_alias r.host aliasData lf.layer newStart len
      let calls := r.calls ++ [⟨aliasData, lf.layer, newStart, len⟩]
      if created.1 ≠ 0 then
        byLimitLoop A es aliasData lf len step fuel (A.norm (i + 1))
          ⟨{ r.ctx with totalCreated := A.norm (r.ctx.totalCreated + 1) }, created.2, calls⟩
      else
        let ctx := { r.ctx with totalFailed := A.norm (r.ctx.totalFailed + 1) }
        if ctx.stopOnFail then some ⟨ctx, created.2, calls⟩
        else byLimitLoop A es aliasData lf len step fuel (A.norm (i + 1)) ⟨ctx, created.2, calls⟩

/-- The function `DuplicateOneObject(es, obj, ctx)`. -/
def DuplicateOneObject {σ : Type} (A : IntArith) (fuel : Nat) (es : EDIT_SECTION σ)
    (obj : OBJECT_HANDLE) (r : Run σ) : Option (Run σ) :=
  let lf := es.get_object_layer_frame r.host obj
  let len := A.norm (lf.«end» - lf.start)
  if len ≤ 0 then
    some { r with ctx := { r.ctx with diagMsg := r.ctx.diagMsg ++ "[len=0] " } }
  else
    let step := max 1 r.ctx.interval
    match es.get_object_alias r.host obj with
    | none =>
      some { r with ctx := { r.ctx with noAlias := A.norm (r.ctx.noAlias + 1),
                                        diagMsg := r.ctx.diagMsg ++ "[alias=null] " } }
    | some aliasData =>
      if aliasData = "" then
        some { r with ctx := { r.ctx with noAlias := A.norm (r.ctx.noAlias + 1),
                                          diagMsg := r.ctx.diagMsg ++ "[alias=null] " } }
      else
        let r1 : Run σ := { r with ctx := { r.ctx with objCount := A.norm (r.ctx.objCount + 1) } }
        if r1.ctx.byCount then byCountLoop A es aliasData lf len step fuel 1 r1
        else byLimitLoop A es aliasData lf len step fuel 1 r1

/-! ## DoDuplicateCallback -/

/-- The loop `for (int si = 0; si < selCount; si++)` of `DoDuplicateCallback`,
entered at the loop test with the current `si`. -/
def selectedLoop {σ : Type} (A : IntArith) (fuel : Nat) (es : EDIT_SECTION σ) (selCount : Int) :
    Nat → Int → Run σ → Option (Run σ)
  | 0, _, _ => none
  | k + 1, si, r =>
    if si < selCount then
      let obj := es.get_selected_object r.host si
      if obj = 0 then selectedLoop A fuel es selCount k (A.norm (si + 1)) r
      else
        match DuplicateOneObject A fuel es obj r with
        | none => none
        | some r1 => selectedLoop A fuel es selCount k (A.norm (si + 1)) r1
    else some r

/-- The callback `DoDuplicateCallback(param, es)`; `es = none` is the null
pointer. The run starts with the context `ctx` and the host state `h`. -/
def DoDuplicateCallback {σ : Type} (A : IntArith) (fuel : Nat) (es : Option (EDIT_SECTION σ))
    (ctx : DuplicateContext) (h : σ) : Option (Run σ) :=
  match es with
  | none => some ⟨{ ctx with diagMsg := "EDIT_SECTION invalid" }, h, []⟩
  | some es =>
    if es.info = false then some ⟨{ ctx with diagMsg := "EDIT_SECTION invalid" }, h, []⟩
    else
      let selCount := es.get_selected_object_num h
      if selCount > 0 then
        selectedLoop A fuel es selCount fuel 0
          ⟨{ ctx with diagMsg := "selected=" ++ toString selCount ++ " " }, h, []⟩
      else
        let focusObj := es.get_focus_object h
        if focusObj ≠ 0 then
          DuplicateOneObject A fuel es focusObj ⟨{ ctx with diagMsg := "focus=1 " }, h, []⟩
        else
          some ⟨{ ctx with diagMsg := "selected=0, focus=none" }, h, []⟩

/-- The parameter set-up of `WndProc` (case `IDC_BTN_APPLY`): `g_ctx = {}`
followed by the five assignments from the values read from the dialog. -/
def applyParams (gap : Int) (byCount : Bool) (count limit : Int) (stop : Bool) :
    DuplicateContext :=
  { ({} : DuplicateContext) with
    interval := max 1 gap
    byCount := byCount
    copies := max 0 count
    limitFrame := max 0 limit
    stopOnFail := stop }

/-! ## Vocabulary of the statements -/

/-- The output members of `DuplicateContext` (those below the comment
`// Output results`). -/
structure DuplicationResult where
  totalCreated : Int
  totalFailed : Int
  objCount : Int
  noAlias : Int
  diagMsg : String
  deriving DecidableEq, Repr

/-- The output members of a context. -/
def DuplicateContext.result (c : DuplicateContext) : DuplicationResult :=
  ⟨c.totalCreated, c.totalFailed, c.objCount, c.noAlias, c.diagMsg⟩

/-- The part of a run that the creation loops change. -/
structure Tally (σ : Type) where
  created : Int
  failed : Int
  host : σ
  calls : List CreateCall

/-- The loop-relevant part of a run. -/
def Run.tally {σ : Type} (r : Run σ) : Tally σ :=
  ⟨r.ctx.totalCreated, r.ctx.totalFailed, r.host, r.calls⟩

/-- Put a tally back into a run; every other member of the context is kept. -/
def Run.withTally {σ : Type} (r : Run σ) (t : Tally σ) : Run σ :=
  ⟨{ r.ctx with totalCreated := t.created, totalFailed := t.failed }, t.host, t.calls⟩

/-- The creation request for the target frame `p`. -/
def mkCall (aliasData : String) (layer len : Int) (p : Int) : CreateCall :=
  ⟨aliasData, layer, p, len⟩

/-- Request the frames of a list one after the other over exact integers:
count successes and failures, stop after the first failure when `stop` holds. -/
def attempts {σ : Type} (es : EDIT_SECTION σ) (aliasData : String) (layer len : Int)
    (stop : Bool) : List Int → Tally σ → Tally σ
  | [], t => t
  | p :: ps, t =>
    let created := es.create_object_from_alias t.host aliasData layer p len
    let calls := t.calls ++ [mkCall aliasData layer len p]
    if created.1 ≠ 0 then
      attempts es aliasData layer len stop ps ⟨t.created + 1, t.failed, created.2, calls⟩
    else if stop then ⟨t.created, t.failed + 1, created.2, calls⟩
    else attempts es aliasData layer len stop ps ⟨t.created, t.failed + 1, created.2, calls⟩

/-- The frames `start + step * i, start + step * (i + 1), ...` (`n` of them). -/
def candidates (start step : Int) : Int → Nat → List Int
  | _, 0 => []
  | i, n + 1 => (start + step * i) :: candidates start step (i + 1) n

/-- The answers (`true` = created) the host gives when the frames of a list
are requested one after the other, starting in host state `h`. -/
def hostResponses {σ : Type} (es : EDIT_SECTION σ) (aliasData : String) (layer len : Int) :
    List Int → σ → List Bool
  | [], _ => []
  | p :: ps, h =>
    let created := es.create_object_from_alias h aliasData layer p len
    decide (created.1 ≠ 0) :: hostResponses es aliasData layer len ps created.2

/-- Left fold of `DuplicateOneObject` over a list of handles. -/
def foldObjects {σ : Type} (A : IntArith) (fuel : Nat) (es : EDIT_SECTION σ) :
    List OBJECT_HANDLE → Run σ → Option (Run σ)
  | [], r => some r
  | obj :: objs, r =>
    match DuplicateOneObject A fuel es obj r with
    | none => none
    | some r1 => foldObjects A fuel es objs r1

/-- Number of candidate frames of the source range `lf` under the context `c`
over exact integers: `max(0, copies)` by count, the number of `i ≥ 1` with
`start + step * i ≤ limitFrame` by limit. -/
def candidateCount (c : DuplicateContext) (lf : OBJECT_LAYER_FRAME) : Nat :=
  if c.byCount then (max 0 c.copies).toNat
  else ((c.limitFrame - lf.start) / max 1 c.interval).toNat

/-- The requests `(alias, layer, start + step * i, end - start)` for `i = 1 .. n`. -/
def expectedCalls (a : String) (lf : OBJECT_LAYER_FRAME) (step : Int) (n : Nat) :
    List CreateCall :=
  (List.range n).map
    (fun j : Nat => ⟨a, lf.layer, lf.start + step * ((j : Int) + 1), lf.«end» - lf.start⟩)

/-! ## Concrete hosts used to instantiate the theorems -/

/-- A host over the state "number of creation requests so far": request
number `k` is rejected iff `rejects k`; objects, selection and focus are fixed. -/
def demoHost (rejects : Nat → Bool) (objs : OBJECT_HANDLE → OBJECT_LAYER_FRAME × Option String)
    (sel : List OBJECT_HANDLE) (focus : OBJECT_HANDLE) : EDIT_SECTION Nat where
  info := true
  get_object_layer_frame := fun _ o => (objs o).1
  get_object_alias := fun _ o => (objs o).2
  create_object_from_alias := fun s _ _ _ _ => (if rejects (s + 1) then 0 else s + 1, s + 1)
  get_selected_object_num := fun _ => sel.length
  get_selected_object := fun _ i => sel.getD i.toNat 0
  get_focus_object := fun _ => focus

/-- Objects of the concrete hosts: handle 2 has empty alias data, handle 3 has
no alias data, handle 4 has a zero-length range, handle 5 lies on the last two
frames a 32-bit `int` can hold, handle 6 is the object of scenario B (frames 0
to 10), handle 7 spans the whole range of a 32-bit `int` and has no alias data,
handle 8 starts on the largest and ends on the smallest 32-bit `int`, every
other handle denotes the object of scenario A (layer 2, frames 10 to 50, alias
data `"a"`). -/
def demoObjects : OBJECT_HANDLE → OBJECT_LAYER_FRAME × Option String :=
  fun o =>
    if o = 2 then (⟨2, 10, 50⟩, some "")
    else if o = 3 then (⟨2, 10, 50⟩, none)
    else if o = 4 then (⟨3, 20, 20⟩, some "b")
    else if o = 5 then (⟨2, 2147483646, 2147483647⟩, some "a")
    else if o = 6 then (⟨1, 0, 10⟩, some "b")
    else if o = 7 then (⟨2, -2147483648, 2147483647⟩, none)
    else if o = 8 then (⟨2, 2147483647, -2147483648⟩, some "a")
    else (⟨2, 10, 50⟩, some "a")

/-! ## Exact integers: the loops as lists of attempts -/

@[simp] theorem intExact_norm (x : Int) : intExact.norm x = x := rfl

@[simp] theorem withTally_tally {σ : Type} (r : Run σ) : r.withTally r.tally = r := rfl

theorem candidates_length (start step : Int) :
    ∀ (n : Nat) (i : Int), (candidates start step i n).length = n := by
  intro n
  induction n with
  | zero => intro i; rfl
  | succ n ih => intro i; simp [candidates, ih]

theorem candidates_eq_map (start step : Int) :
    ∀ (n : Nat) (i : Int),
      candidates start step i n = (List.range n).map (fun j : Nat => start + step * (i + j)) := by
  intro n
  induction n with
  | zero => intro i; rfl
  | succ n ih =>
    intro i
    rw [candidates, ih, List.range_succ_eq_map]
    simp only [List.map_cons, List.map_map, Nat.cast_zero, add_zero]
    congr 1
    apply List.map_congr_left
    intro j _
    simp only [Function.comp, Nat.succ_eq_add_one]
    push_cast
    ring_nf

theorem candidates_take (start step : Int) :
    ∀ (n k : Nat) (i : Int), k ≤ n →
      (candidates start step i n).take k = candidates start step i k := by
  intro n
  induction n with
  | zero => intro k i hk; obtain rfl : k = 0 := by omega
            rfl
  | succ n ih =>
    intro k i hk
    cases k with
    | zero => rfl
    | succ k => simp [candidates, ih k (i + 1) (by omega)]

theorem byCountLoop_exact {σ : Type} (es : EDIT_SECTION σ) (a : String)
    (lf : OBJECT_LAYER_FRAME) (len step : Int) :
    ∀ (n fuel : Nat) (i : Int) (r : Run σ), n < fuel → i + n = max 0 r.ctx.copies + 1 →
      byCountLoop intExact es a lf len step fuel i r =
        some (r.withTally (attempts es a lf.layer len r.ctx.stopOnFail
          (candidates lf.start step i n) r.tally)) := by
  intro n
  induction n with
  | zero =>
    intro fuel i r hf hi
    obtain ⟨f, rfl⟩ : ∃ f, fuel = f + 1 := ⟨fuel - 1, by omega⟩
    have : ¬ i ≤ max 0 r.ctx.copies := by omega
    simp [byCountLoop, this, candidates, attempts]
  | succ n ih =>
    intro fuel i r hf hi
    obtain ⟨f, rfl⟩ : ∃ f, fuel = f + 1 := ⟨fuel - 1, by omega⟩
    have hle : i ≤ max 0 r.ctx.copies := by omega
    have hf2 : n < f := by omega
    simp only [byCountLoop, hle, if_true, candidates, attempts, intExact_norm, Run.tally]
    by_cases hc : (es.create_object_from_alias r.host a lf.layer (lf.start + step * i) len).1 = 0
    · by_cases hs : r.ctx.stopOnFail = true
      · simp [hc, hs, Run.withTally, mkCall]
      · simp only [hc, hs, ne_eq, not_true_eq_false, if_false]
        rw [ih f (i + 1) _ hf2 (by simp; omega)]
        simp [Run.withTally, Run.tally, mkCall, hs]
    · simp only [hc, ne_eq, not_false_eq_true, if_true]
      rw [ih f (i + 1) _ hf2 (by simp; omega)]
      simp [Run.withTally, Run.tally, mkCall]

theorem byLimitLoop_exact {σ : Type} (es : EDIT_SECTION σ) (a : String)
    (lf : OBJECT_LAYER_FRAME) (len step : Int) :
    ∀ (n fuel : Nat) (i : Int) (r : Run σ), n < fuel →
      (∀ j : Nat, j < n → lf.start + step * (i + j) ≤ r.ctx.limitFrame) →
      r.ctx.limitFrame < lf.start + step * (i + n) →
      byLimitLoop intExact es a lf len step fuel i r =
        some (r.withTally (attempts es a lf.layer len r.ctx.stopOnFail
          (candidates lf.start step i n) r.tally)) := by
  intro n
  induction n with
  | zero =>
    intro fuel i r hf _ hi
    obtain ⟨f, rfl⟩ : ∃ f, fuel = f + 1 := ⟨fuel - 1, by omega⟩
    have : lf.start + step * i > r.ctx.limitFrame := by simpa using hi
    simp [byLimitLoop, this, candidates, attempts]
  | succ n ih =>
    intro fuel i r hf hall hi
    obtain ⟨f, rfl⟩ : ∃ f, fuel = f + 1 := ⟨fuel - 1, by omega⟩
    have hle : ¬ lf.start + step * i > r.ctx.limitFrame := by
      have := hall 0 (Nat.succ_pos n)
      simp at this
      omega
    have hf2 : n < f := by omega
    have hall2 : ∀ j : Nat, j < n → lf.start + step * (i + 1 + j) ≤ r.ctx.limitFrame := by
      intro j hj
      have := hall (j + 1) (by omega)
      have e : i + 1 + (j : Int) = i + ((j + 1 : Nat) : Int) := by push_cast; ring
      rw [e]; exact this
    have hi2 : r.ctx.limitFrame < lf.start + step * (i + 1 + n) := by
      have e : i + 1 + (n : Int) = i + ((n + 1 : Nat) : Int) := by push_cast; ring
      rw [e]; exact hi
    simp only [byLimitLoop, hle, if_false, candidates, attempts, intExact_norm, Run.tally]
    by_cases hc : (es.create_object_from_alias r.host a lf.layer (lf.start + step * i) len).1 = 0
    · by_cases hs : r.ctx.stopOnFail = true
      · simp [hc, hs, Run.withTally, mkCall]
      · have hs2 : r.ctx.stopOnFail = false := by simpa using hs
        simp only [hc, hs2, ne_eq, not_true_eq_false, if_false, Bool.false_eq_true]
        rw [ih f (i + 1) _ hf2 (by exact hall2) (by exact hi2)]
        simp [Run.withTally, Run.tally, mkCall, hs2]
    · simp only [hc, ne_eq, not_false_eq_true, if_true]
      rw [ih f (i + 1) _ hf2 (by exact hall2) (by exact hi2)]
      simp [Run.withTally, Run.tally, mkCall]

/-- Over exact integers with `step ≥ 1`, the frames `start + step * i` not above
`limit` are those with `1 ≤ i ≤ (limit - start) / step`. -/
theorem limit_count (start step limit : Int) (hstep : 1 ≤ step) :
    (∀ j : Nat, j < ((limit - start) / step).toNat → start + step * (1 + j) ≤ limit) ∧
    limit < start + step * (1 + (((limit - start) / step).toNat : Int)) := by
  have hpos : 0 < step := by omega
  have h1 : step * ((limit - start) / step) ≤ limit - start := Int.mul_ediv_self_le (by omega)
  have h2 : limit - start < step * ((limit - start) / step) + step :=
    Int.lt_mul_ediv_self_add hpos
  constructor
  · intro j hj
    have hq : (1 + (j : Int)) ≤ (limit - start) / step := by omega
    have := Int.mul_le_mul_of_nonneg_left hq (le_of_lt hpos)
    linarith
  · by_cases hq : 0 ≤ (limit - start) / step
    · rw [Int.toNat_of_nonneg hq]
      linarith
    · have e : ((limit - start) / step).toNat = 0 := by omega
      rw [e]
      have : step * ((limit - start) / step) ≤ step * (-1) :=
        Int.mul_le_mul_of_nonneg_left (by omega) (le_of_lt hpos)
      simp
      linarith

/-! ## Properties of a list of attempts -/

theorem attempts_calls_nostop {σ : Type} (es : EDIT_SECTION σ) (a : String) (layer len : Int) :
    ∀ (ps : List Int) (t : Tally σ),
      (attempts es a layer len false ps t).calls = t.calls ++ ps.map (mkCall a layer len) := by
  intro ps
  induction ps with
  | nil => intro t; simp [attempts]
  | cons p ps ih =>
    intro t
    simp only [attempts]
    split
    · rw [ih]; simp
    · simp only [Bool.false_eq_true, if_false]
      rw [ih]; simp

theorem attempts_counts_nostop {σ : Type} (es : EDIT_SECTION σ) (a : String) (layer len : Int) :
    ∀ (ps : List Int) (t : Tally σ),
      (attempts es a layer len false ps t).created =
          t.created + ((hostResponses es a layer len ps t.host).count true : Nat) ∧
      (attempts es a layer len false ps t).failed =
          t.failed + ((hostResponses es a layer len ps t.host).count false : Nat) := by
  intro ps
  induction ps with
  | nil => intro t; simp [attempts, hostResponses]
  | cons p ps ih =>
    intro t
    simp only [attempts, hostResponses]
    by_cases hc : (es.create_object_from_alias t.host a layer p len).1 = 0
    · simp only [hc, ne_eq, not_true_eq_false, if_false, Bool.false_eq_true, decide_False]
      obtain ⟨h1, h2⟩ := ih ⟨t.created, t.failed + 1,
        (es.create_object_from_alias t.host a layer p len).2, t.calls ++ [mkCall a layer len p]⟩
      rw [h1, h2]
      simp
      omega
    · simp only [hc, ne_eq, not_false_eq_true, if_true, decide_True]
      obtain ⟨h1, h2⟩ := ih ⟨t.created + 1, t.failed,
        (es.create_object_from_alias t.host a layer p len).2, t.calls ++ [mkCall a layer len p]⟩
      rw [h1, h2]
      simp
      omega

theorem attempts_all_accept {σ : Type} (es : EDIT_SECTION σ) (a : String) (layer len : Int)
    (stop : Bool) (hacc : ∀ s al l p n, (es.create_object_from_alias s al l p n).1 ≠ 0) :
    ∀ (ps : List Int) (t : Tally σ),
      (attempts es a layer len stop ps t).created = t.created + (ps.length : Nat) ∧
      (attempts es a layer len stop ps t).failed = t.failed ∧
      (attempts es a layer len stop ps t).calls = t.calls ++ ps.map (mkCall a layer len) := by
  intro ps
  induction ps with
  | nil => intro t; simp [attempts]
  | cons p ps ih =>
    intro t
    simp only [attempts, hacc, ne_eq, not_false_eq_true, if_true]
    obtain ⟨h1, h2, h3⟩ := ih ⟨t.created + 1, t.failed,
        (es.create_object_from_alias t.host a layer p len).2, t.calls ++ [mkCall a layer len p]⟩
    rw [h1, h2, h3]
    simp
    omega

theorem attempts_stop_first_reject {σ : Type} (es : EDIT_SECTION σ) (a : String)
    (layer len : Int) :
    ∀ (ps : List Int) (m : Nat) (t : Tally σ), m < ps.length →
      hostResponses es a layer len (ps.take (m + 1)) t.host = List.replicate m true ++ [false] →
      (attempts es a layer len true ps t).calls =
          t.calls ++ (ps.take (m + 1)).map (mkCall a layer len) ∧
      (attempts es a layer len true ps t).created = t.created + (m : Nat) ∧
      (attempts es a layer len true ps t).failed = t.failed + 1 := by
  intro ps
  induction ps with
  | nil => intro m t hm; simp at hm
  | cons p ps ih =>
    intro m t hm hresp
    cases m with
    | zero =>
      simp only [List.take_succ_cons, List.take_zero, hostResponses, List.replicate_zero,
        List.nil_append, List.cons.injEq, decide_eq_false_iff_not, ne_eq, not_not, and_true] at hresp
      simp [attempts, hresp]
    | succ m =>
      simp only [List.take_succ_cons, hostResponses, List.replicate_succ, List.cons_append,
        List.cons.injEq, decide_eq_true_eq] at hresp
      obtain ⟨hacc, hrest⟩ := hresp
      simp only [attempts, hacc, ne_eq, not_false_eq_true, if_true]
      have hm2 : m < ps.length := by simpa using hm
      obtain ⟨h1, h2, h3⟩ := ih m ⟨t.created + 1, t.failed,
        (es.create_object_from_alias t.host a layer p len).2, t.calls ++ [mkCall a layer len p]⟩
        hm2 hrest
      rw [h1, h2, h3]
      simp
      omega

theorem attempts_calls_length_le {σ : Type} (es : EDIT_SECTION σ) (a : String)
    (layer len : Int) (stop : Bool) :
    ∀ (ps : List Int) (t : Tally σ),
      (attempts es a layer len stop ps t).calls.length ≤ t.calls.length + ps.length := by
  intro ps
  induction ps with
  | nil => intro t; simp [attempts]
  | cons p ps ih =>
    intro t
    simp only [attempts]
    split
    · refine le_trans (ih _) ?_
      simp; omega
    · split
      · simp
      · refine le_trans (ih _) ?_
        simp; omega

/-! ## DuplicateOneObject over exact integers -/

/-- The run after the statement `ctx.objCount++` over exact integers. -/
theorem DuplicateOneObject_exact {σ : Type} (fuel : Nat) (es : EDIT_SECTION σ)
    (obj : OBJECT_HANDLE) (r : Run σ) (a : String)
    (hlen : (es.get_object_layer_frame r.host obj).start < (es.get_object_layer_frame r.host obj).«end»)
    (ha : es.get_object_alias r.host obj = some a) (hne : a ≠ "")
    (hfuel : candidateCount r.ctx (es.get_object_layer_frame r.host obj) < fuel) :
    DuplicateOneObject intExact fuel es obj r =
      some (Run.withTally ⟨{ r.ctx with objCount := r.ctx.objCount + 1 }, r.host, r.calls⟩
        (attempts es a (es.get_object_layer_frame r.host obj).layer
          ((es.get_object_layer_frame r.host obj).«end» - (es.get_object_layer_frame r.host obj).start)
          r.ctx.stopOnFail
          (candidates (es.get_object_layer_frame r.host obj).start (max 1 r.ctx.interval) 1
            (candidateCount r.ctx (es.get_object_layer_frame r.host obj)))
          r.tally)) := by
  have hpos : ¬ (es.get_object_layer_frame r.host obj).«end» -
      (es.get_object_layer_frame r.host obj).start ≤ 0 := by omega
  simp only [DuplicateOneObject, intExact_norm, hpos, if_false, ha, hne]
  by_cases hb : r.ctx.byCount = true
  · simp only [hb, if_true]
    simp only [candidateCount, hb, if_true] at hfuel ⊢
    rw [byCountLoop_exact es a _ _ _ _ fuel 1 _ hfuel (by simp; omega)]
    rfl
  · have hb2 : r.ctx.byCount = false := by simpa using hb
    simp only [hb2, Bool.false_eq_true, if_false]
    simp only [candidateCount, hb2, Bool.false_eq_true, if_false] at hfuel ⊢
    obtain ⟨h1, h2⟩ := limit_count (es.get_object_layer_frame r.host obj).start
      (max 1 r.ctx.interval) r.ctx.limitFrame (le_max_left _ _)
    rw [byLimitLoop_exact es a _ _ _ _ fuel 1 _ hfuel (by exact h1) (by exact h2)]
    rfl

theorem map_mkCall_candidates (a : String) (lf : OBJECT_LAYER_FRAME) (step : Int) (n : Nat) :
    (candidates lf.start step 1 n).map (mkCall a lf.layer (lf.«end» - lf.start)) =
      expectedCalls a lf step n := by
  rw [candidates_eq_map, expectedCalls, List.map_map]
  apply List.map_congr_left
  intro j _
  simp [mkCall, add_comm]

theorem expectedCalls_length (a : String) (lf : OBJECT_LAYER_FRAME) (step : Int) (n : Nat) :
    (expectedCalls a lf step n).length = n := by
  simp [expectedCalls]

theorem expectedCalls_pairwise (a : String) (lf : OBJECT_LAYER_FRAME) (step : Int) (n : Nat)
    (hstep : 1 ≤ step) :
    List.Pairwise (fun x y : CreateCall => x.frame < y.frame) (expectedCalls a lf step n) := by
  unfold expectedCalls
  rw [List.pairwise_map]
  refine List.Pairwise.imp ?_ (List.pairwise_lt_range n)
  intro j k hjk
  have h1 : ((j : Int) + 1) < (k : Int) + 1 := by omega
  have := Int.mul_lt_mul_of_pos_left h1 (show (0 : Int) < step by omega)
  simp only
  omega

theorem expectedCalls_head (a : String) (lf : OBJECT_LAYER_FRAME) (step : Int) (n : Nat)
    (hn : 0 < n) :
    (expectedCalls a lf step n).head? = some ⟨a, lf.layer, lf.start + step, lf.«end» - lf.start⟩ := by
  obtain ⟨m, rfl⟩ : ∃ m, n = m + 1 := ⟨n - 1, by omega⟩
  simp [expectedCalls, List.range_succ_eq_map]

theorem expectedCalls_getLast (a : String) (lf : OBJECT_LAYER_FRAME) (step : Int) (n : Nat)
    (hn : 0 < n) :
    (expectedCalls a lf step n).getLast? =
      some ⟨a, lf.layer, lf.start + step * n, lf.«end» - lf.start⟩ := by
  obtain ⟨m, rfl⟩ : ∃ m, n = m + 1 := ⟨n - 1, by omega⟩
  simp [expectedCalls, List.range_succ]

/-- Over exact integers the by-limit run of `DuplicateOneObject` returns for
every host and either `stopOnFail` setting, after at most
`max 0 (limitFrame - start)` creation requests. -/
theorem byLimit_exact_request_bound {σ : Type} (fuel : Nat) (es : EDIT_SECTION σ)
    (obj : OBJECT_HANDLE) (r : Run σ) (a : String)
    (hlen : (es.get_object_layer_frame r.host obj).start <
      (es.get_object_layer_frame r.host obj).«end»)
    (ha : es.get_object_alias r.host obj = some a) (hne : a ≠ "")
    (hmode : r.ctx.byCount = false)
    (hfuel : (max 0 (r.ctx.limitFrame - (es.get_object_layer_frame r.host obj).start)).toNat
      < fuel) :
    ∃ r' : Run σ, DuplicateOneObject intExact fuel es obj r = some r' ∧
      (r'.calls.length : Int) ≤ r.calls.length +
        max 0 (r.ctx.limitFrame - (es.get_object_layer_frame r.host obj).start) := by
  have hq : (candidateCount r.ctx (es.get_object_layer_frame r.host obj) : Int) ≤
      max 0 (r.ctx.limitFrame - (es.get_object_layer_frame r.host obj).start) := by
    simp only [candidateCount, hmode, Bool.false_eq_true, if_false]
    have hs : (1 : Int) ≤ max 1 r.ctx.interval := le_max_left _ _
    by_cases hd : 0 ≤ r.ctx.limitFrame - (es.get_object_layer_frame r.host obj).start
    · have h1 := Int.ediv_le_self (max 1 r.ctx.interval) hd
      have h2 : 0 ≤ (r.ctx.limitFrame - (es.get_object_layer_frame r.host obj).start) /
          max 1 r.ctx.interval := Int.ediv_nonneg hd (by omega)
      rw [Int.toNat_of_nonneg h2]
      omega
    · have h2 : (r.ctx.limitFrame - (es.get_object_layer_frame r.host obj).start) /
          max 1 r.ctx.interval < 0 := Int.ediv_neg' (by omega) (by omega)
      omega
  have hrun := DuplicateOneObject_exact fuel es obj r a hlen ha hne (by omega)
  refine ⟨_, hrun, ?_⟩
  have hl := attempts_calls_length_le es a (es.get_object_layer_frame r.host obj).layer
    ((es.get_object_layer_frame r.host obj).«end» - (es.get_object_layer_frame r.host obj).start)
    r.ctx.stopOnFail
    (candidates (es.get_object_layer_frame r.host obj).start (max 1 r.ctx.interval) 1
      (candidateCount r.ctx (es.get_object_layer_frame r.host obj))) r.tally
  rw [candidates_length] at hl
  have hl2 : (Run.withTally ⟨{ r.ctx with objCount := r.ctx.objCount + 1 }, r.host, r.calls⟩
      (attempts es a (es.get_object_layer_frame r.host obj).layer
        ((es.get_object_layer_frame r.host obj).«end» -
          (es.get_object_layer_frame r.host obj).start)
        r.ctx.stopOnFail
        (candidates (es.get_object_layer_frame r.host obj).start (max 1 r.ctx.interval) 1
          (candidateCount r.ctx (es.get_object_layer_frame r.host obj)))
        r.tally)).calls.length ≤ r.calls.length +
          candidateCount r.ctx (es.get_object_layer_frame r.host obj) := hl
  omega

/-! ## Termination over exact integers, the selection loop -/

/-- Over exact integers `DuplicateOneObject` returns once the fuel exceeds the
number of candidate frames; the result does not depend on the fuel and its
trace extends the trace it was given. -/
theorem DuplicateOneObject_exact_total {σ : Type} (es : EDIT_SECTION σ)
    (obj : OBJECT_HANDLE) (r : Run σ) :
    ∃ (r' : Run σ) (sfx : String), r'.ctx.diagMsg = r.ctx.diagMsg ++ sfx ∧
      ∀ fuel, candidateCount r.ctx (es.get_object_layer_frame r.host obj) < fuel →
        DuplicateOneObject intExact fuel es obj r = some r' := by
  by_cases hlen : (es.get_object_layer_frame r.host obj).«end» -
      (es.get_object_layer_frame r.host obj).start ≤ 0
  · refine ⟨{ r with ctx := { r.ctx with diagMsg := r.ctx.diagMsg ++ "[len=0] " } },
      "[len=0] ", rfl, ?_⟩
    intro fuel _
    simp [DuplicateOneObject, hlen]
  · cases ha : es.get_object_alias r.host obj with
    | none =>
      refine ⟨{ r with ctx := { r.ctx with noAlias := r.ctx.noAlias + 1,
                                           diagMsg := r.ctx.diagMsg ++ "[alias=null] " } },
        "[alias=null] ", rfl, ?_⟩
      intro fuel _
      simp [DuplicateOneObject, hlen, ha]
    | some a =>
      by_cases hne : a = ""
      · refine ⟨{ r with ctx := { r.ctx with noAlias := r.ctx.noAlias + 1,
                                             diagMsg := r.ctx.diagMsg ++ "[alias=null] " } },
          "[alias=null] ", rfl, ?_⟩
        intro fuel _
        simp [DuplicateOneObject, hlen, ha, hne]
      · refine ⟨_, "", ?_, fun fuel hf =>
          DuplicateOneObject_exact fuel es obj r a (by omega) ha hne hf⟩
        simp [Run.withTally]

/-- Over exact integers the fold of `DuplicateOneObject` over any list of
handles returns for all sufficiently large fuel, with a result independent of
the fuel whose trace extends the trace it was given. -/
theorem foldObjects_exact_total {σ : Type} (es : EDIT_SECTION σ) :
    ∀ (objs : List OBJECT_HANDLE) (r : Run σ),
      ∃ (F : Nat) (r' : Run σ) (sfx : String), r'.ctx.diagMsg = r.ctx.diagMsg ++ sfx ∧
        ∀ fuel, F ≤ fuel → foldObjects intExact fuel es objs r = some r' := by
  intro objs
  induction objs with
  | nil =>
    intro r
    exact ⟨0, r, "", by simp, fun _ _ => rfl⟩
  | cons obj objs ih =>
    intro r
    obtain ⟨r1, s1, hd1, h1⟩ := DuplicateOneObject_exact_total es obj r
    obtain ⟨F, r2, s2, hd2, h2⟩ := ih r1
    refine ⟨max (candidateCount r.ctx (es.get_object_layer_frame r.host obj) + 1) F, r2,
      s1 ++ s2, ?_, ?_⟩
    · rw [hd2, hd1, String.append_assoc]
    · intro fuel hf
      have hf1 : candidateCount r.ctx (es.get_object_layer_frame r.host obj) < fuel := by
        have := le_max_left (candidateCount r.ctx (es.get_object_layer_frame r.host obj) + 1) F
        omega
      have hf2 : F ≤ fuel := le_trans (le_max_right _ _) hf
      simp only [foldObjects, h1 fuel hf1, h2 fuel hf2]

/-- The selection loop over exact integers, for a host whose selection list
stays `hs` during the run: from index `si` on it folds `DuplicateOneObject`
over the non-null handles among the remaining ones. -/
theorem selectedLoop_exact {σ : Type} (fuel : Nat) (es : EDIT_SECTION σ)
    (hs : List OBJECT_HANDLE)
    (hsel : ∀ (s : σ) (i : Nat), i < hs.length → es.get_selected_object s i = hs.getD i 0) :
    ∀ (n si k : Nat) (r : Run σ), si + n = hs.length → n < k →
      selectedLoop intExact fuel es hs.length k si r =
        foldObjects intExact fuel es ((hs.drop si).filter (fun o => decide (o ≠ 0))) r := by
  intro n
  induction n with
  | zero =>
    intro si k r hsi hk
    obtain ⟨k, rfl⟩ : ∃ j, k = j + 1 := ⟨k - 1, by omega⟩
    have hdrop : hs.drop si = [] := List.drop_eq_nil_of_le (by omega)
    have : ¬ ((si : Int) < (hs.length : Int)) := by omega
    simp [selectedLoop, this, hdrop, foldObjects]
  | succ n ih =>
    intro si k r hsi hk
    obtain ⟨k, rfl⟩ : ∃ j, k = j + 1 := ⟨k - 1, by omega⟩
    have hlt : si < hs.length := by omega
    have hlt2 : ((si : Int) < (hs.length : Int)) := by omega
    have hdrop : hs.drop si = hs.getD si 0 :: hs.drop (si + 1) := by
      rw [List.getD_eq_getElem _ _ hlt]
      exact List.drop_eq_getElem_cons hlt
    have ih2 := fun r1 => ih (si + 1) k r1 (by omega) (by omega)
    simp only [selectedLoop, hlt2, if_true, hsel r.host si hlt, intExact_norm, hdrop]
    by_cases h0 : hs.getD si 0 = 0
    · simp only [h0, if_true]
      rw [show ((si : Int) + 1) = ((si + 1 : Nat) : Int) by push_cast; rfl, ih2]
      simp
    · simp only [h0, if_false]
      rw [List.filter_cons_of_pos (by simpa using h0)]
      simp only [foldObjects]
      cases hD : DuplicateOneObject intExact fuel es (hs.getD si 0) r with
      | none => rfl
      | some r1 =>
        simp only
        rw [show ((si : Int) + 1) = ((si + 1 : Nat) : Int) by push_cast; rfl, ih2]

/-- Over exact integers the selection loop returns for every host (stable
selection or not) once the fuel is large enough; the result does not depend on
the fuel and its trace extends the trace the loop was given. -/
theorem selectedLoop_exact_total {σ : Type} (es : EDIT_SECTION σ) (selCount : Int) :
    ∀ (n : Nat) (si : Int) (r : Run σ), si + n = selCount →
      ∃ (F : Nat) (r' : Run σ) (sfx : String), r'.ctx.diagMsg = r.ctx.diagMsg ++ sfx ∧
        ∀ fuel k, F ≤ fuel → n < k → selectedLoop intExact fuel es selCount k si r = some r' := by
  intro n
  induction n with
  | zero =>
    intro si r hsi
    refine ⟨0, r, "", by simp, fun fuel k _ hk => ?_⟩
    obtain ⟨k, rfl⟩ : ∃ j, k = j + 1 := ⟨k - 1, by omega⟩
    have : ¬ si < selCount := by omega
    simp [selectedLoop, this]
  | succ n ih =>
    intro si r hsi
    have hlt : si < selCount := by omega
    by_cases h0 : es.get_selected_object r.host si = 0
    · obtain ⟨F, r', sfx, hd, hF⟩ := ih (si + 1) r (by omega)
      refine ⟨F, r', sfx, hd, fun fuel k hf hk => ?_⟩
      obtain ⟨k, rfl⟩ : ∃ j, k = j + 1 := ⟨k - 1, by omega⟩
      simp only [selectedLoop, hlt, if_true, h0, intExact_norm]
      exact hF fuel k hf (by omega)
    · obtain ⟨r1, s1, hd1, h1⟩ := DuplicateOneObject_exact_total es
        (es.get_selected_object r.host si) r
      obtain ⟨F, r', s2, hd2, hF⟩ := ih (si + 1) r1 (by omega)
      refine ⟨max (candidateCount r.ctx (es.get_object_layer_frame r.host
        (es.get_selected_object r.host si)) + 1) F, r', s1 ++ s2, ?_, fun fuel k hf hk => ?_⟩
      · rw [hd2, hd1, String.append_assoc]
      · obtain ⟨k, rfl⟩ : ∃ j, k = j + 1 := ⟨k - 1, by omega⟩
        have hf1 : candidateCount r.ctx (es.get_object_layer_frame r.host
            (es.get_selected_object r.host si)) < fuel := by
          have := le_max_left (candidateCount r.ctx (es.get_object_layer_frame r.host
            (es.get_selected_object r.host si)) + 1) F
          omega
        have hf2 : F ≤ fuel := le_trans (le_max_right _ _) hf
        simp only [selectedLoop, hlt, if_true, h0, if_false, intExact_norm, h1 fuel hf1]
        exact hF fuel k hf2 (by omega)

/-- The callback on a non-empty stable selection `hs`, over exact integers:
it is the fold of `DuplicateOneObject` over the non-null handles, started
with the trace `selected=N `. -/
theorem DoDuplicateCallback_selected {σ : Type} (fuel : Nat) (es : EDIT_SECTION σ)
    (ctx : DuplicateContext) (h : σ) (hs : List OBJECT_HANDLE)
    (hinfo : es.info = true) (hne : hs ≠ [])
    (hnum : es.get_selected_object_num h = hs.length)
    (hsel : ∀ (s : σ) (i : Nat), i < hs.length → es.get_selected_object s i = hs.getD i 0)
    (hfuel : hs.length < fuel) :
    DoDuplicateCallback intExact fuel (some es) ctx h =
      foldObjects intExact fuel es (hs.filter (fun o => decide (o ≠ 0)))
        ⟨{ ctx with diagMsg := "selected=" ++ toString (hs.length : Int) ++ " " }, h, []⟩ := by
  have hpos : (hs.length : Int) > 0 := by
    have := List.length_pos.mpr hne
    omega
  simp only [DoDuplicateCallback, hinfo, hnum, hpos, if_true, Bool.true_eq_false, if_false]
  have := selectedLoop_exact fuel es hs hsel hs.length 0 fuel
    ⟨{ ctx with diagMsg := "selected=" ++ toString (hs.length : Int) ++ " " }, h, []⟩
    (by simp) hfuel
  simpa using this

/-! ## The focused object is not read while a selection is processed -/

theorem byCountLoop_focus {σ : Type} (A : IntArith) (es : EDIT_SECTION σ)
    (focus : σ → OBJECT_HANDLE) (a : String) (lf : OBJECT_LAYER_FRAME) (len step : Int) :
    ∀ (fuel : Nat) (i : Int) (r : Run σ),
      byCountLoop A { es with get_focus_object := focus } a lf len step fuel i r =
        byCountLoop A es a lf len step fuel i r := by
  intro fuel
  induction fuel with
  | zero => intro i r; rfl
  | succ fuel ih => intro i r; simp only [byCountLoop, ih]

theorem byLimitLoop_focus {σ : Type} (A : IntArith) (es : EDIT_SECTION σ)
    (focus : σ → OBJECT_HANDLE) (a : String) (lf : OBJECT_LAYER_FRAME) (len step : Int) :
    ∀ (fuel : Nat) (i : Int) (r : Run σ),
      byLimitLoop A { es with get_focus_object := focus } a lf len step fuel i r =
        byLimitLoop A es a lf len step fuel i r := by
  intro fuel
  induction fuel with
  | zero => intro i r; rfl
  | succ fuel ih => intro i r; simp only [byLimitLoop, ih]

theorem DuplicateOneObject_focus {σ : Type} (A : IntArith) (fuel : Nat) (es : EDIT_SECTION σ)
    (focus : σ → OBJECT_HANDLE) (obj : OBJECT_HANDLE) (r : Run σ) :
    DuplicateOneObject A fuel { es with get_focus_object := focus } obj r =
      DuplicateOneObject A fuel es obj r := by
  simp only [DuplicateOneObject, byCountLoop_focus, byLimitLoop_focus]

theorem selectedLoop_focus {σ : Type} (A : IntArith) (fuel : Nat) (es : EDIT_SECTION σ)
    (focus : σ → OBJECT_HANDLE) (selCount : Int) :
    ∀ (k : Nat) (si : Int) (r : Run σ),
      selectedLoop A fuel { es with get_focus_object := focus } selCount k si r =
        selectedLoop A fuel es selCount k si r := by
  intro k
  induction k with
  | zero => intro si r; rfl
  | succ k ih => intro si r; simp only [selectedLoop, ih, DuplicateOneObject_focus]

/-! ## 32-bit arithmetic -/

theorem wrap32_le (x : Int) : wrap32 x ≤ 2147483647 := by
  unfold wrap32
  omega

theorem wrap32_of_fits (x : Int) (h1 : -2147483648 ≤ x) (h2 : x ≤ 2147483647) :
    wrap32 x = x := by
  unfold wrap32
  omega

theorem wrap32_add_wrap32 (a b : Int) : wrap32 (a + wrap32 b) = wrap32 (a + b) := by
  unfold wrap32
  omega

/-- The frame `start + step * i` is computed exactly by the 32-bit code as soon
as the frame itself fits (an overflow of `step * i` alone is cancelled by the
addition). -/
theorem newStart_int32 (start step i : Int) (h1 : -2147483648 ≤ start + step * i)
    (h2 : start + step * i ≤ 2147483647) :
    int32.norm (start + int32.norm (step * i)) = start + step * i := by
  show wrap32 (start + wrap32 (step * i)) = start + step * i
  rw [wrap32_add_wrap32, wrap32_of_fits _ h1 h2]

/-- With 32-bit arithmetic, `limitFrame = 2147483647` and `stopOnFail` off, the
test `newStart > ctx.limitFrame` never succeeds and no failure leaves the
loop: the by-limit loop consumes any amount of fuel. -/
theorem byLimitLoop_int32_stuck {σ : Type} (es : EDIT_SECTION σ) (a : String)
    (lf : OBJECT_LAYER_FRAME) (len step : Int) :
    ∀ (fuel : Nat) (i : Int) (r : Run σ), r.ctx.limitFrame = 2147483647 →
      r.ctx.stopOnFail = false →
      byLimitLoop int32 es a lf len step fuel i r = none := by
  intro fuel
  induction fuel with
  | zero => intro i r _ _; rfl
  | succ fuel ih =>
    intro i r hlim hstop
    have hle : ¬ int32.norm (lf.start + int32.norm (step * i)) > r.ctx.limitFrame := by
      have := wrap32_le (lf.start + int32.norm (step * i))
      rw [hlim]
      show ¬ wrap32 (lf.start + int32.norm (step * i)) > 2147483647
      omega
    simp only [byLimitLoop, hle, if_false, hstop, Bool.false_eq_true]
    split
    · exact ih _ _ hlim rfl
    · exact ih _ _ hlim rfl

theorem byCountLoop_int32_eq_exact {σ : Type} (es : EDIT_SECTION σ) (a : String)
    (lf : OBJECT_LAYER_FRAME) (len step : Int) (hstep : 1 ≤ step)
    (hstart : -2147483648 ≤ lf.start) :
    ∀ (fuel : Nat) (i : Int) (r : Run σ), 1 ≤ i →
      max 0 r.ctx.copies + 1 ≤ 2147483647 →
      lf.start + step * max 0 r.ctx.copies ≤ 2147483647 →
      -2147483648 ≤ r.ctx.totalCreated →
      r.ctx.totalCreated + max 0 (max 0 r.ctx.copies + 1 - i) ≤ 2147483647 →
      -2147483648 ≤ r.ctx.totalFailed →
      r.ctx.totalFailed + max 0 (max 0 r.ctx.copies + 1 - i) ≤ 2147483647 →
      byCountLoop int32 es a lf len step fuel i r =
        byCountLoop intExact es a lf len step fuel i r := by
  intro fuel
  induction fuel with
  | zero => intro i r _ _ _ _ _ _ _; rfl
  | succ fuel ih =>
    intro i r hi hm hlast hc1 hc2 hf1 hf2
    by_cases hle : i ≤ max 0 r.ctx.copies
    · have hmul : step * i ≤ step * max 0 r.ctx.copies :=
        Int.mul_le_mul_of_nonneg_left hle (by omega)
      have hmul1 : 1 ≤ step * i := by
        have := Int.mul_le_mul hstep hi (by omega) (by omega)
        omega
      have hns := newStart_int32 lf.start step i (by omega) (by omega)
      have hi1 : int32.norm (i + 1) = i + 1 := wrap32_of_fits _ (by omega) (by omega)
      have hcr : int32.norm (r.ctx.totalCreated + 1) = r.ctx.totalCreated + 1 :=
        wrap32_of_fits _ (by omega) (by omega)
      have hfl : int32.norm (r.ctx.totalFailed + 1) = r.ctx.totalFailed + 1 :=
        wrap32_of_fits _ (by omega) (by omega)
      simp only [byCountLoop, hle, if_true, hns, hi1, hcr, hfl, intExact_norm]
      split
      · exact ih _ _ (by omega) hm hlast (by simp only; omega) (by simp only; omega) hf1
          (by simp only; omega)
      · split
        · rfl
        · exact ih _ _ (by omega) hm hlast hc1 (by simp only; omega) (by simp only; omega)
            (by simp only; omega)
    · simp only [byCountLoop, hle, if_false]

theorem byLimitLoop_int32_eq_exact {σ : Type} (es : EDIT_SECTION σ) (a : String)
    (lf : OBJECT_LAYER_FRAME) (len step : Int) (hstep : 1 ≤ step)
    (hstart : -2147483648 ≤ lf.start) :
    ∀ (fuel : Nat) (i : Int) (r : Run σ), 1 ≤ i →
      lf.start + step * i ≤ 2147483647 →
      r.ctx.limitFrame + step ≤ 2147483647 →
      r.ctx.limitFrame - lf.start < 2147483647 →
      -2147483648 ≤ r.ctx.totalCreated →
      r.ctx.totalCreated + max 0 (r.ctx.limitFrame - lf.start - i + 1) ≤ 2147483647 →
      -2147483648 ≤ r.ctx.totalFailed →
      r.ctx.totalFailed + max 0 (r.ctx.limitFrame - lf.start - i + 1) ≤ 2147483647 →
      byLimitLoop int32 es a lf len step fuel i r =
        byLimitLoop intExact es a lf len step fuel i r := by
  intro fuel
  induction fuel with
  | zero => intro i r _ _ _ _ _ _ _ _; rfl
  | succ fuel ih =>
    intro i r hi hcur hlim hspan hc1 hc2 hf1 hf2
    have hmul1 : i ≤ step * i := by
      have := Int.mul_le_mul_of_nonneg_right hstep (show (0 : Int) ≤ i by omega)
      omega
    have hns := newStart_int32 lf.start step i (by omega) hcur
    by_cases hgt : lf.start + step * i > r.ctx.limitFrame
    · simp only [byLimitLoop, hns, intExact_norm, hgt, if_true]
    · have hnext : lf.start + step * (i + 1) ≤ 2147483647 := by
        have : step * (i + 1) = step * i + step := by ring
        omega
      have hi1 : int32.norm (i + 1) = i + 1 := wrap32_of_fits _ (by omega) (by omega)
      have hcr : int32.norm (r.ctx.totalCreated + 1) = r.ctx.totalCreated + 1 :=
        wrap32_of_fits _ (by omega) (by omega)
      have hfl : int32.norm (r.ctx.totalFailed + 1) = r.ctx.totalFailed + 1 :=
        wrap32_of_fits _ (by omega) (by omega)
      simp only [byLimitLoop, hns, intExact_norm, hgt, if_false, hi1, hcr, hfl]
      split
      · exact ih _ _ (by omega) hnext hlim hspan (by simp only; omega) (by simp only; omega) hf1
          (by simp only; omega)
      · split
        · rfl
        · exact ih _ _ (by omega) hnext hlim hspan hc1 (by simp only; omega)
            (by simp only; omega) (by simp only; omega)

/-- The 32-bit code and the exact-integer reading of `DuplicateOneObject`
agree whenever nothing overflows: the source range, the counters and the last
frame that the loop computes (`start + step * copies` by count, at most
`limitFrame + step` by limit) all fit a 32-bit `int`. -/
theorem DuplicateOneObject_int32_eq_exact {σ : Type} (fuel : Nat) (es : EDIT_SECTION σ)
    (obj : OBJECT_HANDLE) (r : Run σ)
    (hstart : -2147483648 ≤ (es.get_object_layer_frame r.host obj).start)
    (hlen1 : -2147483648 ≤ (es.get_object_layer_frame r.host obj).«end» -
      (es.get_object_layer_frame r.host obj).start)
    (hlen2 : (es.get_object_layer_frame r.host obj).«end» -
      (es.get_object_layer_frame r.host obj).start ≤ 2147483647)
    (hobj1 : -2147483648 ≤ r.ctx.objCount + 1) (hobj2 : r.ctx.objCount + 1 ≤ 2147483647)
    (hna1 : -2147483648 ≤ r.ctx.noAlias + 1) (hna2 : r.ctx.noAlias + 1 ≤ 2147483647)
    (hc1 : -2147483648 ≤ r.ctx.totalCreated) (hf1 : -2147483648 ≤ r.ctx.totalFailed)
    (hcount : r.ctx.byCount = true →
      max 0 r.ctx.copies + 1 ≤ 2147483647 ∧
      (es.get_object_layer_frame r.host obj).start +
        max 1 r.ctx.interval * max 0 r.ctx.copies ≤ 2147483647 ∧
      r.ctx.totalCreated + max 0 r.ctx.copies ≤ 2147483647 ∧
      r.ctx.totalFailed + max 0 r.ctx.copies ≤ 2147483647)
    (hlimit : r.ctx.byCount = false →
      (es.get_object_layer_frame r.host obj).start + max 1 r.ctx.interval ≤ 2147483647 ∧
      r.ctx.limitFrame + max 1 r.ctx.interval ≤ 2147483647 ∧
      r.ctx.limitFrame - (es.get_object_layer_frame r.host obj).start < 2147483647 ∧
      r.ctx.totalCreated +
        max 0 (r.ctx.limitFrame - (es.get_object_layer_frame r.host obj).start) ≤ 2147483647 ∧
      r.ctx.totalFailed +
        max 0 (r.ctx.limitFrame - (es.get_object_layer_frame r.host obj).start) ≤ 2147483647) :
    DuplicateOneObject int32 fuel es obj r = DuplicateOneObject intExact fuel es obj r := by
  have hlen : int32.norm ((es.get_object_layer_frame r.host obj).«end» -
      (es.get_object_layer_frame r.host obj).start) =
      (es.get_object_layer_frame r.host obj).«end» -
        (es.get_object_layer_frame r.host obj).start := wrap32_of_fits _ hlen1 hlen2
  have hobj : int32.norm (r.ctx.objCount + 1) = r.ctx.objCount + 1 :=
    wrap32_of_fits _ hobj1 hobj2
  have hna : int32.norm (r.ctx.noAlias + 1) = r.ctx.noAlias + 1 := wrap32_of_fits _ hna1 hna2
  simp only [DuplicateOneObject, hlen, hobj, hna, intExact_norm]
  split
  · rfl
  · split
    · rfl
    · split
      · rfl
      · by_cases hb : r.ctx.byCount = true
        · obtain ⟨h1, h2, h3, h4⟩ := hcount hb
          simp only [hb, if_true]
          exact byCountLoop_int32_eq_exact es _ _ _ _ (le_max_left _ _) hstart fuel 1 _
            (le_refl _) h1 h2 hc1 (by simp only; omega) hf1 (by simp only; omega)
        · have hb2 : r.ctx.byCount = false := by simpa using hb
          obtain ⟨h1, h2, h3, h4, h5⟩ := hlimit hb2
          simp only [hb2, Bool.false_eq_true, if_false]
          exact byLimitLoop_int32_eq_exact es _ _ _ _ (le_max_left _ _) hstart fuel 1 _
            (le_refl _) (by simpa using h1) h2 h3 hc1 (by simp only; omega) hf1
            (by simp only; omega)

/-! ## 32-bit arithmetic: loops whose exit test no `int` satisfies -/

/-- With 32-bit arithmetic and `copies = 2147483647` the test
`i <= std::max(0, ctx.copies)` holds for every `int` value of `i`; when no
failure leaves the loop (`stopOnFail` off, or a host that accepts every
creation) the by-count loop consumes any amount of fuel. -/
theorem byCountLoop_int32_stuck {σ : Type} (es : EDIT_SECTION σ) (a : String)
    (lf : OBJECT_LAYER_FRAME) (len step : Int) :
    ∀ (fuel : Nat) (i : Int) (r : Run σ), i ≤ 2147483647 → r.ctx.copies = 2147483647 →
      (r.ctx.stopOnFail = false ∨ ∀ s al l p n, (es.create_object_from_alias s al l p n).1 ≠ 0) →
      byCountLoop int32 es a lf len step fuel i r = none := by
  intro fuel
  induction fuel with
  | zero => intro i r _ _ _; rfl
  | succ fuel ih =>
    intro i r hi hcop hnb
    have hle : i ≤ max 0 r.ctx.copies := by rw [hcop]; omega
    have hi1 : int32.norm (i + 1) ≤ 2147483647 := wrap32_le _
    simp only [byCountLoop, hle, if_true]
    split
    · exact ih _ _ hi1 hcop hnb
    · rcases hnb with hs | hacc
      · simp only [hs, Bool.false_eq_true, if_false]
        exact ih _ _ hi1 hcop (Or.inl rfl)
      · rename_i hc
        exact absurd hc (by simpa using hacc _ _ _ _ _)

/-- With 32-bit arithmetic, when no `int` value of `newStart` exceeds the limit
frame `L` and `stopOnFail` is off, the by-limit loop consumes any amount of
fuel. -/
theorem byLimitLoop_int32_stuck_of_le {σ : Type} (es : EDIT_SECTION σ) (a : String)
    (lf : OBJECT_LAYER_FRAME) (len step L : Int)
    (hall : ∀ i : Int, int32.norm (lf.start + int32.norm (step * i)) ≤ L) :
    ∀ (fuel : Nat) (i : Int) (r : Run σ), r.ctx.limitFrame = L →
      r.ctx.stopOnFail = false →
      byLimitLoop int32 es a lf len step fuel i r = none := by
  intro fuel
  induction fuel with
  | zero => intro i r _ _; rfl
  | succ fuel ih =>
    intro i r hlim hstop
    have hle : ¬ int32.norm (lf.start + int32.norm (step * i)) > r.ctx.limitFrame := by
      have := hall i
      rw [hlim]
      omega
    simp only [byLimitLoop, hle, if_false, hstop, Bool.false_eq_true]
    split
    · exact ih _ _ hlim rfl
    · exact ih _ _ hlim rfl

/-- On the 32-bit code a duplicable object is never finished by count with
`copies = 2147483647` when no failure leaves the loop. -/
theorem DuplicateOneObject_int32_count_stuck {σ : Type} (es : EDIT_SECTION σ)
    (obj : OBJECT_HANDLE) (r : Run σ) (a : String)
    (hlen : ¬ wrap32 ((es.get_object_layer_frame r.host obj).«end» -
      (es.get_object_layer_frame r.host obj).start) ≤ 0)
    (ha : es.get_object_alias r.host obj = some a) (hne : a ≠ "")
    (hmode : r.ctx.byCount = true) (hcop : r.ctx.copies = 2147483647)
    (hnb : r.ctx.stopOnFail = false ∨
      ∀ s al l p n, (es.create_object_from_alias s al l p n).1 ≠ 0) :
    ∀ fuel, DuplicateOneObject int32 fuel es obj r = none := by
  intro fuel
  have hlen2 : ¬ int32.norm ((es.get_object_layer_frame r.host obj).«end» -
      (es.get_object_layer_frame r.host obj).start) ≤ 0 := hlen
  simp only [DuplicateOneObject, hlen2, if_false, ha, hne, hmode, if_true]
  exact byCountLoop_int32_stuck es a _ _ _ fuel 1 _ (by omega) hcop hnb

/-- On the 32-bit code a duplicable object is never finished by limit with
`stopOnFail` off when no `int` value of `newStart` exceeds the limit frame. -/
theorem DuplicateOneObject_int32_limit_stuck {σ : Type} (es : EDIT_SECTION σ)
    (obj : OBJECT_HANDLE) (r : Run σ) (a : String)
    (hlen : ¬ wrap32 ((es.get_object_layer_frame r.host obj).«end» -
      (es.get_object_layer_frame r.host obj).start) ≤ 0)
    (ha : es.get_object_alias r.host obj = some a) (hne : a ≠ "")
    (hmode : r.ctx.byCount = false) (hstop : r.ctx.stopOnFail = false)
    (hall : ∀ i : Int, wrap32 ((es.get_object_layer_frame r.host obj).start +
      wrap32 (max 1 r.ctx.interval * i)) ≤ r.ctx.limitFrame) :
    ∀ fuel, DuplicateOneObject int32 fuel es obj r = none := by
  intro fuel
  have hlen2 : ¬ int32.norm ((es.get_object_layer_frame r.host obj).«end» -
      (es.get_object_layer_frame r.host obj).start) ≤ 0 := hlen
  simp only [DuplicateOneObject, hlen2, if_false, ha, hne, hmode, Bool.false_eq_true]
  exact byLimitLoop_int32_stuck_of_le es a _ _ _ r.ctx.limitFrame hall fuel 1 _ rfl hstop

/-- By count with every creation accepted, over exact integers: for a source
object with `end > start` and a non-empty alias, every interval and every
`copies ≥ 0` with `copies < fuel`, a host that
accepts every creation makes `DuplicateOneObject` return after issuing exactly
`copies` requests, the i-th (i = 1..copies) being
`(alias, layer, start + step * i, end - start)` with `step = max 1 interval`;
the requested frames are strictly increasing, the first is `start + step`, the
last `start + step * copies`; `totalCreated` grows by `copies`, `totalFailed`
is unchanged, and `copies = 0` issues no request. -/
theorem byCount_requests_exact {σ : Type} (fuel : Nat) (es : EDIT_SECTION σ)
    (obj : OBJECT_HANDLE) (r : Run σ) (a : String)
    (hlen : (es.get_object_layer_frame r.host obj).start <
      (es.get_object_layer_frame r.host obj).«end»)
    (ha : es.get_object_alias r.host obj = some a) (hne : a ≠ "")
    (hmode : r.ctx.byCount = true) (hcopies : 0 ≤ r.ctx.copies)
    (hacc : ∀ s al l p n, (es.create_object_from_alias s al l p n).1 ≠ 0)
    (hfuel : r.ctx.copies.toNat < fuel) :
    ∃ r' : Run σ, ∃ issued : List CreateCall,
      DuplicateOneObject intExact fuel es obj r = some r' ∧
      r'.calls = r.calls ++ issued ∧
      issued = expectedCalls a (es.get_object_layer_frame r.host obj) (max 1 r.ctx.interval)
        r.ctx.copies.toNat ∧
      (issued.length : Int) = r.ctx.copies ∧
      List.Pairwise (fun x y : CreateCall => x.frame < y.frame) issued ∧
      (0 < r.ctx.copies →
        issued.head?.map CreateCall.frame =
          some ((es.get_object_layer_frame r.host obj).start + max 1 r.ctx.interval) ∧
        issued.getLast?.map CreateCall.frame =
          some ((es.get_object_layer_frame r.host obj).start +
            max 1 r.ctx.interval * r.ctx.copies)) ∧
      (r.ctx.copies = 0 → issued = []) ∧
      r'.ctx.totalCreated = r.ctx.totalCreated + r.ctx.copies ∧
      r'.ctx.totalFailed = r.ctx.totalFailed := by
  have hcc : candidateCount r.ctx (es.get_object_layer_frame r.host obj) = r.ctx.copies.toNat := by
    simp [candidateCount, hmode, hcopies]
  have hrun := DuplicateOneObject_exact fuel es obj r a hlen ha hne (by rw [hcc]; exact hfuel)
  rw [hcc] at hrun
  obtain ⟨h1, h2, h3⟩ := attempts_all_accept es a (es.get_object_layer_frame r.host obj).layer
    ((es.get_object_layer_frame r.host obj).«end» - (es.get_object_layer_frame r.host obj).start)
    r.ctx.stopOnFail hacc
    (candidates (es.get_object_layer_frame r.host obj).start (max 1 r.ctx.interval) 1
      r.ctx.copies.toNat) r.tally
  rw [map_mkCall_candidates] at h3
  rw [candidates_length] at h1
  refine ⟨_, _, hrun, h3, rfl, ?_, ?_, ?_, ?_, ?_, ?_⟩
  · rw [expectedCalls_length]; exact Int.toNat_of_nonneg hcopies
  · exact expectedCalls_pairwise _ _ _ _ (le_max_left _ _)
  · intro hpos
    have hn : 0 < r.ctx.copies.toNat := by omega
    rw [expectedCalls_head _ _ _ _ hn, expectedCalls_getLast _ _ _ _ hn]
    simp [Int.toNat_of_nonneg hcopies]
  · intro h0
    simp [h0, expectedCalls]
  · show (attempts _ _ _ _ _ _ _).created = _
    rw [h1]
    simp [Run.tally, Int.toNat_of_nonneg hcopies]
  · show (attempts _ _ _ _ _ _ _).failed = _
    rw [h2]; rfl

/-- By limit with `stopOnFail` off, over exact integers: for a source object
with `end > start` and a non-empty alias, every interval and every limit
frame, whatever the host answers, `DuplicateOneObject` (given more fuel than
there are candidates) returns after requesting the frames
`start + step * i` for `i = 1 .. n` (`step = max 1 interval`): a possibly empty,
strictly increasing sequence whose elements are all `≤ limitFrame`, whose last
element plus `step` (the next candidate `start + step * (n + 1)`) is
`> limitFrame`, and which is empty when `start + step > limitFrame`. -/
theorem byLimit_requests_exact {σ : Type} (fuel : Nat) (es : EDIT_SECTION σ)
    (obj : OBJECT_HANDLE) (r : Run σ) (a : String)
    (hlen : (es.get_object_layer_frame r.host obj).start <
      (es.get_object_layer_frame r.host obj).«end»)
    (ha : es.get_object_alias r.host obj = some a) (hne : a ≠ "")
    (hmode : r.ctx.byCount = false) (hstop : r.ctx.stopOnFail = false)
    (hfuel : candidateCount r.ctx (es.get_object_layer_frame r.host obj) < fuel) :
    ∃ r' : Run σ, ∃ issued : List CreateCall, ∃ n : Nat,
      DuplicateOneObject intExact fuel es obj r = some r' ∧
      r'.calls = r.calls ++ issued ∧
      issued = expectedCalls a (es.get_object_layer_frame r.host obj) (max 1 r.ctx.interval) n ∧
      List.Pairwise (fun x y : CreateCall => x.frame < y.frame) issued ∧
      (∀ c ∈ issued, c.frame ≤ r.ctx.limitFrame) ∧
      (∀ c, issued.getLast? = some c → r.ctx.limitFrame < c.frame + max 1 r.ctx.interval) ∧
      r.ctx.limitFrame <
        (es.get_object_layer_frame r.host obj).start + max 1 r.ctx.interval * ((n : Int) + 1) ∧
      (r.ctx.limitFrame <
        (es.get_object_layer_frame r.host obj).start + max 1 r.ctx.interval → issued = []) := by
  have hrun := DuplicateOneObject_exact fuel es obj r a hlen ha hne hfuel
  have hcalls := attempts_calls_nostop es a (es.get_object_layer_frame r.host obj).layer
    ((es.get_object_layer_frame r.host obj).«end» - (es.get_object_layer_frame r.host obj).start)
    (candidates (es.get_object_layer_frame r.host obj).start (max 1 r.ctx.interval) 1
      (candidateCount r.ctx (es.get_object_layer_frame r.host obj))) r.tally
  rw [map_mkCall_candidates] at hcalls
  rw [hstop] at hrun
  obtain ⟨hin, hnext⟩ := limit_count (es.get_object_layer_frame r.host obj).start
    (max 1 r.ctx.interval) r.ctx.limitFrame (le_max_left _ _)
  have hcc : candidateCount r.ctx (es.get_object_layer_frame r.host obj) =
      ((r.ctx.limitFrame - (es.get_object_layer_frame r.host obj).start) /
        max 1 r.ctx.interval).toNat := by
    simp [candidateCount, hmode]
  rw [← hcc] at hin hnext
  have hnext2 : r.ctx.limitFrame < (es.get_object_layer_frame r.host obj).start +
      max 1 r.ctx.interval *
        ((candidateCount r.ctx (es.get_object_layer_frame r.host obj) : Int) + 1) := by
    rw [add_comm ((candidateCount r.ctx (es.get_object_layer_frame r.host obj) : Int)) 1]
    exact hnext
  refine ⟨_, _, candidateCount r.ctx (es.get_object_layer_frame r.host obj), hrun, hcalls, rfl,
    expectedCalls_pairwise _ _ _ _ (le_max_left _ _), ?_, ?_, hnext2, ?_⟩
  · intro c hc
    simp only [expectedCalls, List.mem_map, List.mem_range] at hc
    obtain ⟨j, hj, rfl⟩ := hc
    have := hin j hj
    simp only
    rw [add_comm (j : Int) 1]
    exact this
  · intro c hc
    by_cases hn : 0 < candidateCount r.ctx (es.get_object_layer_frame r.host obj)
    · rw [expectedCalls_getLast _ _ _ _ hn] at hc
      cases hc
      simp only
      have e : (es.get_object_layer_frame r.host obj).start + max 1 r.ctx.interval *
          (candidateCount r.ctx (es.get_object_layer_frame r.host obj) : Int) +
          max 1 r.ctx.interval = (es.get_object_layer_frame r.host obj).start +
          max 1 r.ctx.interval *
            ((candidateCount r.ctx (es.get_object_layer_frame r.host obj) : Int) + 1) := by ring
      rw [e]; exact hnext2
    · have h0 : candidateCount r.ctx (es.get_object_layer_frame r.host obj) = 0 := by omega
      rw [h0] at hc
      simp [expectedCalls] at hc
  · intro hlt
    by_cases hn : 0 < candidateCount r.ctx (es.get_object_layer_frame r.host obj)
    · have := hin 0 hn
      simp at this
      omega
    · have h0 : candidateCount r.ctx (es.get_object_layer_frame r.host obj) = 0 := by omega
      rw [h0]; rfl

/-- Stop on failure in both modes, over exact integers: let a duplicable
source object have `n` candidate frames and let the host accept the first `k - 1` candidates and
reject the `k`-th (`1 ≤ k ≤ n`). With `stopOnFail = true`, `DuplicateOneObject`
issues exactly the first `k` requests, adds `k - 1` to `totalCreated` and `1`
to `totalFailed`. With `stopOnFail = false` (for any host) it issues all `n`
requests and adds the number of accepted requests to `totalCreated` and the
number of rejected requests to `totalFailed`. -/
theorem stop_on_failure_exact {σ : Type} (fuel : Nat) (es : EDIT_SECTION σ)
    (obj : OBJECT_HANDLE) (r : Run σ) (a : String) (k : Nat)
    (hlen : (es.get_object_layer_frame r.host obj).start <
      (es.get_object_layer_frame r.host obj).«end»)
    (ha : es.get_object_alias r.host obj = some a) (hne : a ≠ "")
    (hk1 : 1 ≤ k) (hkn : k ≤ candidateCount r.ctx (es.get_object_layer_frame r.host obj))
    (hfirst : hostResponses es a (es.get_object_layer_frame r.host obj).layer
        ((es.get_object_layer_frame r.host obj).«end» -
          (es.get_object_layer_frame r.host obj).start)
        (candidates (es.get_object_layer_frame r.host obj).start (max 1 r.ctx.interval) 1 k)
        r.host = List.replicate (k - 1) true ++ [false])
    (hfuel : candidateCount r.ctx (es.get_object_layer_frame r.host obj) < fuel) :
    (∃ r' : Run σ,
      DuplicateOneObject intExact fuel es obj
        { r with ctx := { r.ctx with stopOnFail := true } } = some r' ∧
      r'.calls = r.calls ++
        expectedCalls a (es.get_object_layer_frame r.host obj) (max 1 r.ctx.interval) k ∧
      r'.ctx.totalCreated = r.ctx.totalCreated + ((k : Int) - 1) ∧
      r'.ctx.totalFailed = r.ctx.totalFailed + 1) ∧
    (∃ r' : Run σ,
      DuplicateOneObject intExact fuel es obj
        { r with ctx := { r.ctx with stopOnFail := false } } = some r' ∧
      r'.calls = r.calls ++
        expectedCalls a (es.get_object_layer_frame r.host obj) (max 1 r.ctx.interval)
          (candidateCount r.ctx (es.get_object_layer_frame r.host obj)) ∧
      r'.ctx.totalCreated = r.ctx.totalCreated +
        ((hostResponses es a (es.get_object_layer_frame r.host obj).layer
          ((es.get_object_layer_frame r.host obj).«end» -
            (es.get_object_layer_frame r.host obj).start)
          (candidates (es.get_object_layer_frame r.host obj).start (max 1 r.ctx.interval) 1
            (candidateCount r.ctx (es.get_object_layer_frame r.host obj)))
          r.host).count true : Nat) ∧
      r'.ctx.totalFailed = r.ctx.totalFailed +
        ((hostResponses es a (es.get_object_layer_frame r.host obj).layer
          ((es.get_object_layer_frame r.host obj).«end» -
            (es.get_object_layer_frame r.host obj).start)
          (candidates (es.get_object_layer_frame r.host obj).start (max 1 r.ctx.interval) 1
            (candidateCount r.ctx (es.get_object_layer_frame r.host obj)))
          r.host).count false : Nat)) := by
  obtain ⟨m, rfl⟩ : ∃ m, k = m + 1 := ⟨k - 1, by omega⟩
  constructor
  · have hrun := DuplicateOneObject_exact fuel es obj
      { r with ctx := { r.ctx with stopOnFail := true } } a hlen ha hne hfuel
    have hres : hostResponses es a (es.get_object_layer_frame r.host obj).layer
        ((es.get_object_layer_frame r.host obj).«end» -
          (es.get_object_layer_frame r.host obj).start)
        ((candidates (es.get_object_layer_frame r.host obj).start (max 1 r.ctx.interval) 1
          (candidateCount r.ctx (es.get_object_layer_frame r.host obj))).take (m + 1))
        r.tally.host = List.replicate m true ++ [false] := by
      rw [candidates_take _ _ _ _ _ hkn]
      exact hfirst
    obtain ⟨h1, h2, h3⟩ := attempts_stop_first_reject es a
      (es.get_object_layer_frame r.host obj).layer
      ((es.get_object_layer_frame r.host obj).«end» -
        (es.get_object_layer_frame r.host obj).start)
      (candidates (es.get_object_layer_frame r.host obj).start (max 1 r.ctx.interval) 1
        (candidateCount r.ctx (es.get_object_layer_frame r.host obj))) m r.tally
      (by rw [candidates_length]; omega) hres
    rw [candidates_take _ _ _ _ _ hkn, map_mkCall_candidates] at h1
    refine ⟨_, hrun, h1, ?_, h3⟩
    exact Eq.trans h2 (by simp [Run.tally])
  · have hrun := DuplicateOneObject_exact fuel es obj
      { r with ctx := { r.ctx with stopOnFail := false } } a hlen ha hne hfuel
    have hcalls := attempts_calls_nostop es a (es.get_object_layer_frame r.host obj).layer
      ((es.get_object_layer_frame r.host obj).«end» -
        (es.get_object_layer_frame r.host obj).start)
      (candidates (es.get_object_layer_frame r.host obj).start (max 1 r.ctx.interval) 1
        (candidateCount r.ctx (es.get_object_layer_frame r.host obj))) r.tally
    rw [map_mkCall_candidates] at hcalls
    obtain ⟨h1, h2⟩ := attempts_counts_nostop es a (es.get_object_layer_frame r.host obj).layer
      ((es.get_object_layer_frame r.host obj).«end» -
        (es.get_object_layer_frame r.host obj).start)
      (candidates (es.get_object_layer_frame r.host obj).start (max 1 r.ctx.interval) 1
        (candidateCount r.ctx (es.get_object_layer_frame r.host obj))) r.tally
    exact ⟨_, hrun, hcalls, h1, h2⟩

/-- Batch isolation over exact integers: for a non-empty selection `hs` (the handles the host
reports, in its order), every context (`stopOnFail` included) and every host
behaviour, `DoDuplicateCallback` equals the left fold of `DuplicateOneObject`
over the non-null handles of `hs`, in order, on one accumulator: every
non-null handle is processed exactly once whatever happened to the objects
before it, a null handle contributes nothing, and the callback returns. -/
theorem batch_fold_exact {σ : Type} (es : EDIT_SECTION σ)
    (ctx : DuplicateContext) (h : σ) (hs : List OBJECT_HANDLE)
    (hinfo : es.info = true) (hne : hs ≠ [])
    (hnum : es.get_selected_object_num h = hs.length)
    (hsel : ∀ (s : σ) (i : Nat), i < hs.length → es.get_selected_object s i = hs.getD i 0) :
    (∀ fuel, hs.length < fuel →
      DoDuplicateCallback intExact fuel (some es) ctx h =
        foldObjects intExact fuel es (hs.filter (fun o => decide (o ≠ 0)))
          ⟨{ ctx with diagMsg := "selected=" ++ toString (hs.length : Int) ++ " " }, h, []⟩) ∧
    (∃ (F : Nat) (res : Run σ), ∀ fuel, F ≤ fuel →
      DoDuplicateCallback intExact fuel (some es) ctx h = some res ∧
      foldObjects intExact fuel es (hs.filter (fun o => decide (o ≠ 0)))
          ⟨{ ctx with diagMsg := "selected=" ++ toString (hs.length : Int) ++ " " }, h, []⟩ =
        some res) := by
  refine ⟨fun fuel hf => DoDuplicateCallback_selected fuel es ctx h hs hinfo hne hnum hsel hf, ?_⟩
  obtain ⟨F, res, _, _, hF⟩ := foldObjects_exact_total es (hs.filter (fun o => decide (o ≠ 0)))
    ⟨{ ctx with diagMsg := "selected=" ++ toString (hs.length : Int) ++ " " }, h, []⟩
  refine ⟨max F (hs.length + 1), res, fun fuel hf => ?_⟩
  have h1 : F ≤ fuel := le_trans (le_max_left _ _) hf
  have h2 : hs.length < fuel := by
    have := le_max_right F (hs.length + 1)
    omega
  rw [DoDuplicateCallback_selected fuel es ctx h hs hinfo hne hnum hsel h2]
  exact ⟨hF fuel h1, hF fuel h1⟩

/-- Selection `[1, null, 3, 1]` with `stopOnFail` on a host that rejects the
first request: the first object stops after one failure, the null handle is
skipped, the object without alias data is counted in `noAlias`, and the last
object is still duplicated. -/
theorem batch_fold_exact_example :
    (∀ fuel, 4 < fuel →
      DoDuplicateCallback intExact fuel
          (some (demoHost (fun k => k == 1) demoObjects [1, 0, 3, 1] 0))
          { interval := 40, byCount := true, copies := 2, stopOnFail := true } 0 =
        foldObjects intExact fuel (demoHost (fun k => k == 1) demoObjects [1, 0, 3, 1] 0)
          [1, 3, 1]
          ⟨{ interval := 40, byCount := true, copies := 2, stopOnFail := true,
             diagMsg := "selected=4 " }, 0, []⟩) ∧
    (∃ (F : Nat) (res : Run Nat), ∀ fuel, F ≤ fuel →
      DoDuplicateCallback intExact fuel
          (some (demoHost (fun k => k == 1) demoObjects [1, 0, 3, 1] 0))
          { interval := 40, byCount := true, copies := 2, stopOnFail := true } 0 = some res ∧
      foldObjects intExact fuel (demoHost (fun k => k == 1) demoObjects [1, 0, 3, 1] 0)
          [1, 3, 1]
          ⟨{ interval := 40, byCount := true, copies := 2, stopOnFail := true,
             diagMsg := "selected=4 " }, 0, []⟩ = some res) :=
  batch_fold_exact (demoHost (fun k => k == 1) demoObjects [1, 0, 3, 1] 0)
    { interval := 40, byCount := true, copies := 2, stopOnFail := true } 0 [1, 0, 3, 1]
    rfl (by decide) rfl (by intro s i _; simp [demoHost])

/-- Selection priority, with the runs over exact integers. Let the host report `N` selected objects.
If `N > 0`: the callback gives the same result whatever `get_focus_object`
answers (the focused object is never consulted), it returns, and the trace
begins with `selected=N`; for a selection `hs` that stays the same during the
run the result is the fold of `DuplicateOneObject` over the non-null selected
handles in host order.
If `N = 0` and a focused object exists: the callback returns the result of
`DuplicateOneObject` on that single object, and the trace begins with the
focus marker `focus=1 `. -/
theorem selection_priority_exact {σ : Type} (es : EDIT_SECTION σ) (ctx : DuplicateContext)
    (h : σ) (hinfo : es.info = true) :
    (0 < es.get_selected_object_num h →
      (∀ (A : IntArith) (fuel : Nat) (focus : σ → OBJECT_HANDLE),
        DoDuplicateCallback A fuel (some { es with get_focus_object := focus }) ctx h =
          DoDuplicateCallback A fuel (some es) ctx h) ∧
      ∃ (F : Nat) (res : Run σ) (rest : String),
        res.ctx.diagMsg = "selected=" ++ toString (es.get_selected_object_num h) ++ rest ∧
        ∀ fuel, F ≤ fuel → DoDuplicateCallback intExact fuel (some es) ctx h = some res) ∧
    (∀ hs : List OBJECT_HANDLE, hs ≠ [] → es.get_selected_object_num h = hs.length →
      (∀ (s : σ) (i : Nat), i < hs.length → es.get_selected_object s i = hs.getD i 0) →
      ∀ fuel, hs.length < fuel →
        DoDuplicateCallback intExact fuel (some es) ctx h =
          foldObjects intExact fuel es (hs.filter (fun o => decide (o ≠ 0)))
            ⟨{ ctx with diagMsg := "selected=" ++ toString (hs.length : Int) ++ " " }, h, []⟩) ∧
    (es.get_selected_object_num h = 0 → es.get_focus_object h ≠ 0 →
      ∃ (F : Nat) (res : Run σ) (rest : String),
        res.ctx.diagMsg = "focus=1 " ++ rest ∧
        ∀ fuel, F ≤ fuel →
          DoDuplicateCallback intExact fuel (some es) ctx h = some res ∧
          DuplicateOneObject intExact fuel es (es.get_focus_object h)
            ⟨{ ctx with diagMsg := "focus=1 " }, h, []⟩ = some res) := by
  refine ⟨?_, ?_, ?_⟩
  · intro hpos
    have hgt : es.get_selected_object_num h > 0 := hpos
    refine ⟨fun A fuel focus => ?_, ?_⟩
    · simp only [DoDuplicateCallback, hgt, if_true, selectedLoop_focus]
    · obtain ⟨F, res, sfx, hd, hF⟩ := selectedLoop_exact_total es (es.get_selected_object_num h)
        (es.get_selected_object_num h).toNat 0
        ⟨{ ctx with diagMsg := "selected=" ++ toString (es.get_selected_object_num h) ++ " " },
          h, []⟩ (by omega)
      refine ⟨max F ((es.get_selected_object_num h).toNat + 1), res, " " ++ sfx, ?_,
        fun fuel hf => ?_⟩
      · rw [hd]; simp only [String.append_assoc]
      · have h1 : F ≤ fuel := le_trans (le_max_left _ _) hf
        have h2 : (es.get_selected_object_num h).toNat < fuel := by
          have := le_max_right F ((es.get_selected_object_num h).toNat + 1)
          omega
        simp only [DoDuplicateCallback, hinfo, hgt, if_true, Bool.true_eq_false, if_false]
        exact hF fuel fuel h1 h2
  · intro hs hne hnum hsel fuel hf
    exact DoDuplicateCallback_selected fuel es ctx h hs hinfo hne hnum hsel hf
  · intro hnum hfocus
    obtain ⟨res, sfx, hd, hF⟩ := DuplicateOneObject_exact_total es (es.get_focus_object h)
      ⟨{ ctx with diagMsg := "focus=1 " }, h, []⟩
    refine ⟨candidateCount ctx (es.get_object_layer_frame h (es.get_focus_object h)) + 1,
      res, sfx, hd, fun fuel hf => ?_⟩
    have hrun := hF fuel (by
      show candidateCount ctx (es.get_object_layer_frame h (es.get_focus_object h)) < fuel
      omega)
    refine ⟨?_, hrun⟩
    simp only [DoDuplicateCallback, hinfo, hnum, gt_iff_lt, lt_self_iff_false, if_false,
      Bool.true_eq_false, ne_eq, hfocus, not_false_eq_true, if_true]
    exact hrun

/-- A host with the selection `[1, 3]` and the focused object `1`: the focus
is ignored and the trace begins with `selected=2`; a host with an empty
selection and the focused object `1`: that object is processed and the trace
begins with `focus=1 `. -/
theorem selection_priority_exact_example :
    ((∀ (A : IntArith) (fuel : Nat) (focus : Nat → OBJECT_HANDLE),
      DoDuplicateCallback A fuel
          (some { demoHost (fun _ => false) demoObjects [1, 3] 1 with
                    get_focus_object := focus })
          { interval := 40, copies := 1 } 0 =
        DoDuplicateCallback A fuel (some (demoHost (fun _ => false) demoObjects [1, 3] 1))
          { interval := 40, copies := 1 } 0) ∧
      ∃ (F : Nat) (res : Run Nat) (rest : String),
        res.ctx.diagMsg = "selected=2" ++ rest ∧
        ∀ fuel, F ≤ fuel →
          DoDuplicateCallback intExact fuel
            (some (demoHost (fun _ => false) demoObjects [1, 3] 1))
            { interval := 40, copies := 1 } 0 = some res) ∧
    (∀ fuel, 2 < fuel →
        DoDuplicateCallback intExact fuel (some (demoHost (fun _ => false) demoObjects [1, 3] 1))
          { interval := 40, copies := 1 } 0 =
        foldObjects intExact fuel (demoHost (fun _ => false) demoObjects [1, 3] 1) [1, 3]
          ⟨{ interval := 40, copies := 1, diagMsg := "selected=2 " }, 0, []⟩) ∧
    (∃ (F : Nat) (res : Run Nat) (rest : String),
      res.ctx.diagMsg = "focus=1 " ++ rest ∧
      ∀ fuel, F ≤ fuel →
        DoDuplicateCallback intExact fuel (some (demoHost (fun _ => false) demoObjects [] 1))
          { interval := 40, copies := 1 } 0 = some res ∧
        DuplicateOneObject intExact fuel (demoHost (fun _ => false) demoObjects [] 1) 1
          ⟨{ interval := 40, copies := 1, diagMsg := "focus=1 " }, 0, []⟩ = some res) :=
  ⟨(selection_priority_exact (demoHost (fun _ => false) demoObjects [1, 3] 1)
      { interval := 40, copies := 1 } 0 rfl).1 (by decide),
   (selection_priority_exact (demoHost (fun _ => false) demoObjects [1, 3] 1)
      { interval := 40, copies := 1 } 0 rfl).2.1 [1, 3] (by decide) rfl
      (by intro s i _; simp [demoHost]),
   (selection_priority_exact (demoHost (fun _ => false) demoObjects [] 1)
      { interval := 40, copies := 1 } 0 rfl).2.2 rfl (by decide)⟩

/-- Missing payload over exact integers: for a source object with `end > start` whose alias
data is absent (null) or empty, in either mode, `DuplicateOneObject` returns
after incrementing `noAlias` by exactly 1 and appending the token
`[alias=null] ` to the trace; it issues no creation request and leaves the
host state, `objCount`, `totalCreated` and `totalFailed` unchanged. -/
theorem missing_payload_exact {σ : Type} (fuel : Nat) (es : EDIT_SECTION σ)
    (obj : OBJECT_HANDLE) (r : Run σ)
    (hlen : (es.get_object_layer_frame r.host obj).start <
      (es.get_object_layer_frame r.host obj).«end»)
    (ha : es.get_object_alias r.host obj = none ∨ es.get_object_alias r.host obj = some "") :
    ∃ r' : Run σ, DuplicateOneObject intExact fuel es obj r = some r' ∧
      r'.calls = r.calls ∧ r'.host = r.host ∧
      r'.ctx.noAlias = r.ctx.noAlias + 1 ∧
      r'.ctx.diagMsg = r.ctx.diagMsg ++ "[alias=null] " ∧
      r'.ctx.objCount = r.ctx.objCount ∧
      r'.ctx.totalCreated = r.ctx.totalCreated ∧ r'.ctx.totalFailed = r.ctx.totalFailed := by
  have h : ¬ (es.get_object_layer_frame r.host obj).«end» -
      (es.get_object_layer_frame r.host obj).start ≤ 0 := by omega
  refine ⟨{ r with ctx := { r.ctx with noAlias := r.ctx.noAlias + 1,
                                       diagMsg := r.ctx.diagMsg ++ "[alias=null] " } }, ?_,
    rfl, rfl, rfl, rfl, rfl, rfl, rfl⟩
  rcases ha with ha | ha <;> simp [DuplicateOneObject, h, ha]

/-- Malformed source over exact integers: for a source object with `end ≤ start`, whatever
its alias data and whatever the request, `DuplicateOneObject` returns the run
it was given (same host state, no creation request, all counters unchanged)
except that the token `[len=0] ` is appended to the end of the trace. -/
theorem malformed_source_exact {σ : Type} (fuel : Nat) (es : EDIT_SECTION σ)
    (obj : OBJECT_HANDLE) (r : Run σ)
    (hlen : (es.get_object_layer_frame r.host obj).«end» ≤
      (es.get_object_layer_frame r.host obj).start) :
    ∃ r' : Run σ, DuplicateOneObject intExact fuel es obj r = some r' ∧
      r'.calls = r.calls ∧ r'.host = r.host ∧
      r'.ctx.totalCreated = r.ctx.totalCreated ∧ r'.ctx.totalFailed = r.ctx.totalFailed ∧
      r'.ctx.objCount = r.ctx.objCount ∧ r'.ctx.noAlias = r.ctx.noAlias ∧
      r'.ctx.diagMsg = r.ctx.diagMsg ++ "[len=0] " ∧
      r' = { r with ctx := { r.ctx with diagMsg := r.ctx.diagMsg ++ "[len=0] " } } := by
  have h : (es.get_object_layer_frame r.host obj).«end» -
      (es.get_object_layer_frame r.host obj).start ≤ 0 := by omega
  refine ⟨{ r with ctx := { r.ctx with diagMsg := r.ctx.diagMsg ++ "[len=0] " } }, ?_,
    rfl, rfl, rfl, rfl, rfl, rfl, rfl, rfl⟩
  simp [DuplicateOneObject, h]

/-! ## What the 32-bit code computes while nothing overflows -/

/-- For a duplicable object the 32-bit code and the exact-integer reading of
`DuplicateOneObject` agree whenever the length, `objCount + 1`, the counters
and the last frame the loop computes fit a 32-bit `int`. -/
theorem DuplicateOneObject_int32_eq_exact_of_alias {σ : Type} (fuel : Nat)
    (es : EDIT_SECTION σ) (obj : OBJECT_HANDLE) (r : Run σ) (a : String)
    (ha : es.get_object_alias r.host obj = some a) (hne : a ≠ "")
    (hstart : -2147483648 ≤ (es.get_object_layer_frame r.host obj).start)
    (hlen1 : -2147483648 ≤ (es.get_object_layer_frame r.host obj).«end» -
      (es.get_object_layer_frame r.host obj).start)
    (hlen2 : (es.get_object_layer_frame r.host obj).«end» -
      (es.get_object_layer_frame r.host obj).start ≤ 2147483647)
    (hobj1 : -2147483648 ≤ r.ctx.objCount + 1) (hobj2 : r.ctx.objCount + 1 ≤ 2147483647)
    (hc1 : -2147483648 ≤ r.ctx.totalCreated) (hf1 : -2147483648 ≤ r.ctx.totalFailed)
    (hcount : r.ctx.byCount = true →
      max 0 r.ctx.copies + 1 ≤ 2147483647 ∧
      (es.get_object_layer_frame r.host obj).start +
        max 1 r.ctx.interval * max 0 r.ctx.copies ≤ 2147483647 ∧
      r.ctx.totalCreated + max 0 r.ctx.copies ≤ 2147483647 ∧
      r.ctx.totalFailed + max 0 r.ctx.copies ≤ 2147483647)
    (hlimit : r.ctx.byCount = false →
      (es.get_object_layer_frame r.host obj).start + max 1 r.ctx.interval ≤ 2147483647 ∧
      r.ctx.limitFrame + max 1 r.ctx.interval ≤ 2147483647 ∧
      r.ctx.limitFrame - (es.get_object_layer_frame r.host obj).start < 2147483647 ∧
      r.ctx.totalCreated +
        max 0 (r.ctx.limitFrame - (es.get_object_layer_frame r.host obj).start) ≤ 2147483647 ∧
      r.ctx.totalFailed +
        max 0 (r.ctx.limitFrame - (es.get_object_layer_frame r.host obj).start) ≤ 2147483647) :
    DuplicateOneObject int32 fuel es obj r = DuplicateOneObject intExact fuel es obj r := by
  have hlen : int32.norm ((es.get_object_layer_frame r.host obj).«end» -
      (es.get_object_layer_frame r.host obj).start) =
      (es.get_object_layer_frame r.host obj).«end» -
        (es.get_object_layer_frame r.host obj).start := wrap32_of_fits _ hlen1 hlen2
  have hobj : int32.norm (r.ctx.objCount + 1) = r.ctx.objCount + 1 :=
    wrap32_of_fits _ hobj1 hobj2
  simp only [DuplicateOneObject, hlen, hobj, intExact_norm, ha, hne, if_false]
  split
  · rfl
  · by_cases hb : r.ctx.byCount = true
    · obtain ⟨h1, h2, h3, h4⟩ := hcount hb
      simp only [hb, if_true]
      exact byCountLoop_int32_eq_exact es _ _ _ _ (le_max_left _ _) hstart fuel 1 _
        (le_refl _) h1 h2 hc1 (by simp only; omega) hf1 (by simp only; omega)
    · have hb2 : r.ctx.byCount = false := by simpa using hb
      obtain ⟨h1, h2, h3, h4, h5⟩ := hlimit hb2
      simp only [hb2, Bool.false_eq_true, if_false]
      exact byLimitLoop_int32_eq_exact es _ _ _ _ (le_max_left _ _) hstart fuel 1 _
        (le_refl _) (by simpa using h1) h2 h3 hc1 (by simp only; omega) hf1
        (by simp only; omega)

/-- By count with every creation accepted, on the 32-bit code: the statement
of `byCount_requests_exact` holds when `copies < 2147483647`, the last frame
`start + step * copies`, the length, `objCount + 1` and both counters plus
`copies` fit a 32-bit `int`. -/
theorem byCount_requests_int32 {σ : Type} (fuel : Nat) (es : EDIT_SECTION σ)
    (obj : OBJECT_HANDLE) (r : Run σ) (a : String)
    (hlen : (es.get_object_layer_frame r.host obj).start <
      (es.get_object_layer_frame r.host obj).«end»)
    (ha : es.get_object_alias r.host obj = some a) (hne : a ≠ "")
    (hmode : r.ctx.byCount = true) (hcopies : 0 ≤ r.ctx.copies)
    (hacc : ∀ s al l p n, (es.create_object_from_alias s al l p n).1 ≠ 0)
    (hfuel : r.ctx.copies.toNat < fuel)
    (hstart : -2147483648 ≤ (es.get_object_layer_frame r.host obj).start)
    (hlen2 : (es.get_object_layer_frame r.host obj).«end» -
      (es.get_object_layer_frame r.host obj).start ≤ 2147483647)
    (hobj1 : -2147483648 ≤ r.ctx.objCount + 1) (hobj2 : r.ctx.objCount + 1 ≤ 2147483647)
    (hc1 : -2147483648 ≤ r.ctx.totalCreated) (hf1 : -2147483648 ≤ r.ctx.totalFailed)
    (hcop : r.ctx.copies < 2147483647)
    (hlast : (es.get_object_layer_frame r.host obj).start +
      max 1 r.ctx.interval * r.ctx.copies ≤ 2147483647)
    (hc2 : r.ctx.totalCreated + r.ctx.copies ≤ 2147483647)
    (hf2 : r.ctx.totalFailed + r.ctx.copies ≤ 2147483647) :
    ∃ r' : Run σ, ∃ issued : List CreateCall,
      DuplicateOneObject int32 fuel es obj r = some r' ∧
      r'.calls = r.calls ++ issued ∧
      issued = expectedCalls a (es.get_object_layer_frame r.host obj) (max 1 r.ctx.interval)
        r.ctx.copies.toNat ∧
      (issued.length : Int) = r.ctx.copies ∧
      List.Pairwise (fun x y : CreateCall => x.frame < y.frame) issued ∧
      (0 < r.ctx.copies →
        issued.head?.map CreateCall.frame =
          some ((es.get_object_layer_frame r.host obj).start + max 1 r.ctx.interval) ∧
        issued.getLast?.map CreateCall.frame =
          some ((es.get_object_layer_frame r.host obj).start +
            max 1 r.ctx.interval * r.ctx.copies)) ∧
      (r.ctx.copies = 0 → issued = []) ∧
      r'.ctx.totalCreated = r.ctx.totalCreated + r.ctx.copies ∧
      r'.ctx.totalFailed = r.ctx.totalFailed := by
  have hm : max 0 r.ctx.copies = r.ctx.copies := max_eq_right hcopies
  rw [DuplicateOneObject_int32_eq_exact_of_alias fuel es obj r a ha hne hstart (by omega) hlen2
    hobj1 hobj2 hc1 hf1
    (fun _ => by rw [hm]; exact ⟨by omega, hlast, hc2, hf2⟩)
    (fun h => by rw [hmode] at h; exact absurd h (by decide))]
  exact byCount_requests_exact fuel es obj r a hlen ha hne hmode hcopies hacc hfuel

/-- By limit with `stopOnFail` off, on the 32-bit code: the statement of
`byLimit_requests_exact` holds when `limitFrame + step`, `start + step`, the
span `limitFrame - start`, the length, `objCount + 1` and both counters plus
the span fit a 32-bit `int`. -/
theorem byLimit_requests_int32 {σ : Type} (fuel : Nat) (es : EDIT_SECTION σ)
    (obj : OBJECT_HANDLE) (r : Run σ) (a : String)
    (hlen : (es.get_object_layer_frame r.host obj).start <
      (es.get_object_layer_frame r.host obj).«end»)
    (ha : es.get_object_alias r.host obj = some a) (hne : a ≠ "")
    (hmode : r.ctx.byCount = false) (hstop : r.ctx.stopOnFail = false)
    (hfuel : candidateCount r.ctx (es.get_object_layer_frame r.host obj) < fuel)
    (hstart : -2147483648 ≤ (es.get_object_layer_frame r.host obj).start)
    (hlen2 : (es.get_object_layer_frame r.host obj).«end» -
      (es.get_object_layer_frame r.host obj).start ≤ 2147483647)
    (hobj1 : -2147483648 ≤ r.ctx.objCount + 1) (hobj2 : r.ctx.objCount + 1 ≤ 2147483647)
    (hc1 : -2147483648 ≤ r.ctx.totalCreated) (hf1 : -2147483648 ≤ r.ctx.totalFailed)
    (hfirst : (es.get_object_layer_frame r.host obj).start + max 1 r.ctx.interval ≤ 2147483647)
    (hlim : r.ctx.limitFrame + max 1 r.ctx.interval ≤ 2147483647)
    (hspan : r.ctx.limitFrame - (es.get_object_layer_frame r.host obj).start < 2147483647)
    (hc2 : r.ctx.totalCreated +
      max 0 (r.ctx.limitFrame - (es.get_object_layer_frame r.host obj).start) ≤ 2147483647)
    (hf2 : r.ctx.totalFailed +
      max 0 (r.ctx.limitFrame - (es.get_object_layer_frame r.host obj).start) ≤ 2147483647) :
    ∃ r' : Run σ, ∃ issued : List CreateCall, ∃ n : Nat,
      DuplicateOneObject int32 fuel es obj r = some r' ∧
      r'.calls = r.calls ++ issued ∧
      issued = expectedCalls a (es.get_object_layer_frame r.host obj) (max 1 r.ctx.interval) n ∧
      List.Pairwise (fun x y : CreateCall => x.frame < y.frame) issued ∧
      (∀ c ∈ issued, c.frame ≤ r.ctx.limitFrame) ∧
      (∀ c, issued.getLast? = some c → r.ctx.limitFrame < c.frame + max 1 r.ctx.interval) ∧
      r.ctx.limitFrame <
        (es.get_object_layer_frame r.host obj).start + max 1 r.ctx.interval * ((n : Int) + 1) ∧
      (r.ctx.limitFrame <
        (es.get_object_layer_frame r.host obj).start + max 1 r.ctx.interval → issued = []) := by
  rw [DuplicateOneObject_int32_eq_exact_of_alias fuel es obj r a ha hne hstart (by omega) hlen2
    hobj1 hobj2 hc1 hf1
    (fun h => by rw [hmode] at h; exact absurd h (by decide))
    (fun _ => ⟨hfirst, hlim, hspan, hc2, hf2⟩)]
  exact byLimit_requests_exact fuel es obj r a hlen ha hne hmode hstop hfuel

/-- Missing payload on the 32-bit code: the statement of
`missing_payload_exact` holds when `end - start` and `noAlias + 1` fit a 32-bit
`int`. -/
theorem missing_payload_int32 {σ : Type} (fuel : Nat) (es : EDIT_SECTION σ)
    (obj : OBJECT_HANDLE) (r : Run σ)
    (hlen : (es.get_object_layer_frame r.host obj).start <
      (es.get_object_layer_frame r.host obj).«end»)
    (ha : es.get_object_alias r.host obj = none ∨ es.get_object_alias r.host obj = some "")
    (hlen2 : (es.get_object_layer_frame r.host obj).«end» -
      (es.get_object_layer_frame r.host obj).start ≤ 2147483647)
    (hna1 : -2147483648 ≤ r.ctx.noAlias + 1) (hna2 : r.ctx.noAlias + 1 ≤ 2147483647) :
    ∃ r' : Run σ, DuplicateOneObject int32 fuel es obj r = some r' ∧
      r'.calls = r.calls ∧ r'.host = r.host ∧
      r'.ctx.noAlias = r.ctx.noAlias + 1 ∧
      r'.ctx.diagMsg = r.ctx.diagMsg ++ "[alias=null] " ∧
      r'.ctx.objCount = r.ctx.objCount ∧
      r'.ctx.totalCreated = r.ctx.totalCreated ∧ r'.ctx.totalFailed = r.ctx.totalFailed := by
  have hl : int32.norm ((es.get_object_layer_frame r.host obj).«end» -
      (es.get_object_layer_frame r.host obj).start) =
      (es.get_object_layer_frame r.host obj).«end» -
        (es.get_object_layer_frame r.host obj).start := wrap32_of_fits _ (by omega) hlen2
  have hn : int32.norm (r.ctx.noAlias + 1) = r.ctx.noAlias + 1 := wrap32_of_fits _ hna1 hna2
  have h : ¬ (es.get_object_layer_frame r.host obj).«end» -
      (es.get_object_layer_frame r.host obj).start ≤ 0 := by omega
  refine ⟨{ r with ctx := { r.ctx with noAlias := r.ctx.noAlias + 1,
                                       diagMsg := r.ctx.diagMsg ++ "[alias=null] " } }, ?_,
    rfl, rfl, rfl, rfl, rfl, rfl, rfl⟩
  rcases ha with ha | ha <;> simp [DuplicateOneObject, hl, hn, h, ha]

/-- Malformed source on the 32-bit code: the statement of
`malformed_source_exact` holds when `end - start` fits a 32-bit `int`. -/
theorem malformed_source_int32 {σ : Type} (fuel : Nat) (es : EDIT_SECTION σ)
    (obj : OBJECT_HANDLE) (r : Run σ)
    (hlen : (es.get_object_layer_frame r.host obj).«end» ≤
      (es.get_object_layer_frame r.host obj).start)
    (hlen1 : -2147483648 ≤ (es.get_object_layer_frame r.host obj).«end» -
      (es.get_object_layer_frame r.host obj).start) :
    ∃ r' : Run σ, DuplicateOneObject int32 fuel es obj r = some r' ∧
      r'.calls = r.calls ∧ r'.host = r.host ∧
      r'.ctx.totalCreated = r.ctx.totalCreated ∧ r'.ctx.totalFailed = r.ctx.totalFailed ∧
      r'.ctx.objCount = r.ctx.objCount ∧ r'.ctx.noAlias = r.ctx.noAlias ∧
      r'.ctx.diagMsg = r.ctx.diagMsg ++ "[len=0] " ∧
      r' = { r with ctx := { r.ctx with diagMsg := r.ctx.diagMsg ++ "[len=0] " } } := by
  have hl : int32.norm ((es.get_object_layer_frame r.host obj).«end» -
      (es.get_object_layer_frame r.host obj).start) =
      (es.get_object_layer_frame r.host obj).«end» -
        (es.get_object_layer_frame r.host obj).start := wrap32_of_fits _ hlen1 (by omega)
  have h : (es.get_object_layer_frame r.host obj).«end» -
      (es.get_object_layer_frame r.host obj).start ≤ 0 := by omega
  refine ⟨{ r with ctx := { r.ctx with diagMsg := r.ctx.diagMsg ++ "[len=0] " } }, ?_,
    rfl, rfl, rfl, rfl, rfl, rfl, rfl, rfl⟩
  simp [DuplicateOneObject, hl, h]

/-- Stop on failure on the 32-bit code: the statement of
`stop_on_failure_exact` holds when the length, `objCount + 1`, the counters and
the last frame the loop computes fit a 32-bit `int` (the hypotheses of
`DuplicateOneObject_int32_eq_exact_of_alias`). -/
theorem stop_on_failure_int32 {σ : Type} (fuel : Nat) (es : EDIT_SECTION σ)
    (obj : OBJECT_HANDLE) (r : Run σ) (a : String) (k : Nat)
    (hlen : (es.get_object_layer_frame r.host obj).start <
      (es.get_object_layer_frame r.host obj).«end»)
    (ha : es.get_object_alias r.host obj = some a) (hne : a ≠ "")
    (hk1 : 1 ≤ k) (hkn : k ≤ candidateCount r.ctx (es.get_object_layer_frame r.host obj))
    (hfirst : hostResponses es a (es.get_object_layer_frame r.host obj).layer
        ((es.get_object_layer_frame r.host obj).«end» -
          (es.get_object_layer_frame r.host obj).start)
        (candidates (es.get_object_layer_frame r.host obj).start (max 1 r.ctx.interval) 1 k)
        r.host = List.replicate (k - 1) true ++ [false])
    (hfuel : candidateCount r.ctx (es.get_object_layer_frame r.host obj) < fuel)
    (hstart : -2147483648 ≤ (es.get_object_layer_frame r.host obj).start)
    (hlen2 : (es.get_object_layer_frame r.host obj).«end» -
      (es.get_object_layer_frame r.host obj).start ≤ 2147483647)
    (hobj1 : -2147483648 ≤ r.ctx.objCount + 1) (hobj2 : r.ctx.objCount + 1 ≤ 2147483647)
    (hc1 : -2147483648 ≤ r.ctx.totalCreated) (hf1 : -2147483648 ≤ r.ctx.totalFailed)
    (hcount : r.ctx.byCount = true →
      max 0 r.ctx.copies + 1 ≤ 2147483647 ∧
      (es.get_object_layer_frame r.host obj).start +
        max 1 r.ctx.interval * max 0 r.ctx.copies ≤ 2147483647 ∧
      r.ctx.totalCreated + max 0 r.ctx.copies ≤ 2147483647 ∧
      r.ctx.totalFailed + max 0 r.ctx.copies ≤ 2147483647)
    (hlimit : r.ctx.byCount = false →
      (es.get_object_layer_frame r.host obj).start + max 1 r.ctx.interval ≤ 2147483647 ∧
      r.ctx.limitFrame + max 1 r.ctx.interval ≤ 2147483647 ∧
      r.ctx.limitFrame - (es.get_object_layer_frame r.host obj).start < 2147483647 ∧
      r.ctx.totalCreated +
        max 0 (r.ctx.limitFrame - (es.get_object_layer_frame r.host obj).start) ≤ 2147483647 ∧
      r.ctx.totalFailed +
        max 0 (r.ctx.limitFrame - (es.get_object_layer_frame r.host obj).start) ≤ 2147483647) :
    (∃ r' : Run σ,
      DuplicateOneObject int32 fuel es obj
        { r with ctx := { r.ctx with stopOnFail := true } } = some r' ∧
      r'.calls = r.calls ++
        expectedCalls a (es.get_object_layer_frame r.host obj) (max 1 r.ctx.interval) k ∧
      r'.ctx.totalCreated = r.ctx.totalCreated + ((k : Int) - 1) ∧
      r'.ctx.totalFailed = r.ctx.totalFailed + 1) ∧
    (∃ r' : Run σ,
      DuplicateOneObject int32 fuel es obj
        { r with ctx := { r.ctx with stopOnFail := false } } = some r' ∧
      r'.calls = r.calls ++
        expectedCalls a (es.get_object_layer_frame r.host obj) (max 1 r.ctx.interval)
          (candidateCount r.ctx (es.get_object_layer_frame r.host obj)) ∧
      r'.ctx.totalCreated = r.ctx.totalCreated +
        ((hostResponses es a (es.get_object_layer_frame r.host obj).layer
          ((es.get_object_layer_frame r.host obj).«end» -
            (es.get_object_layer_frame r.host obj).start)
          (candidates (es.get_object_layer_frame r.host obj).start (max 1 r.ctx.interval) 1
            (candidateCount r.ctx (es.get_object_layer_frame r.host obj)))
          r.host).count true : Nat) ∧
      r'.ctx.totalFailed = r.ctx.totalFailed +
        ((hostResponses es a (es.get_object_layer_frame r.host obj).layer
          ((es.get_object_layer_frame r.host obj).«end» -
            (es.get_object_layer_frame r.host obj).start)
          (candidates (es.get_object_layer_frame r.host obj).start (max 1 r.ctx.interval) 1
            (candidateCount r.ctx (es.get_object_layer_frame r.host obj)))
          r.host).count false : Nat)) := by
  have hlen1 : -2147483648 ≤ (es.get_object_layer_frame r.host obj).«end» -
      (es.get_object_layer_frame r.host obj).start := by omega
  rw [DuplicateOneObject_int32_eq_exact_of_alias fuel es obj
      { r with ctx := { r.ctx with stopOnFail := true } } a ha hne hstart hlen1 hlen2
      hobj1 hobj2 hc1 hf1 hcount hlimit,
    DuplicateOneObject_int32_eq_exact_of_alias fuel es obj
      { r with ctx := { r.ctx with stopOnFail := false } } a ha hne hstart hlen1 hlen2
      hobj1 hobj2 hc1 hf1 hcount hlimit]
  exact stop_on_failure_exact fuel es obj r a k hlen ha hne hk1 hkn hfirst hfuel

/-- The selection loop for a host whose selection list stays `hs` during the
run, in any arithmetic that computes `si + 1` exactly below `hs.length`: from
index `si` on it folds `DuplicateOneObject` over the non-null handles among
the remaining ones. -/
theorem selectedLoop_fold {σ : Type} (A : IntArith) (fuel : Nat) (es : EDIT_SECTION σ)
    (hs : List OBJECT_HANDLE)
    (hA : ∀ i : Nat, i < hs.length → A.norm ((i : Int) + 1) = (i : Int) + 1)
    (hsel : ∀ (s : σ) (i : Nat), i < hs.length → es.get_selected_object s i = hs.getD i 0) :
    ∀ (n si k : Nat) (r : Run σ), si + n = hs.length → n < k →
      selectedLoop A fuel es hs.length k si r =
        foldObjects A fuel es ((hs.drop si).filter (fun o => decide (o ≠ 0))) r := by
  intro n
  induction n with
  | zero =>
    intro si k r hsi hk
    obtain ⟨k, rfl⟩ : ∃ j, k = j + 1 := ⟨k - 1, by omega⟩
    have hdrop : hs.drop si = [] := List.drop_eq_nil_of_le (by omega)
    have : ¬ ((si : Int) < (hs.length : Int)) := by omega
    simp [selectedLoop, this, hdrop, foldObjects]
  | succ n ih =>
    intro si k r hsi hk
    obtain ⟨k, rfl⟩ : ∃ j, k = j + 1 := ⟨k - 1, by omega⟩
    have hlt : si < hs.length := by omega
    have hlt2 : ((si : Int) < (hs.length : Int)) := by omega
    have hdrop : hs.drop si = hs.getD si 0 :: hs.drop (si + 1) := by
      rw [List.getD_eq_getElem _ _ hlt]
      exact List.drop_eq_getElem_cons hlt
    have ih2 := fun r1 => ih (si + 1) k r1 (by omega) (by omega)
    simp only [selectedLoop, hlt2, if_true, hsel r.host si hlt, hA si hlt, hdrop]
    by_cases h0 : hs.getD si 0 = 0
    · simp only [h0, if_true]
      rw [show ((si : Int) + 1) = ((si + 1 : Nat) : Int) by push_cast; rfl, ih2]
      simp
    · simp only [h0, if_false]
      rw [List.filter_cons_of_pos (by simpa using h0)]
      simp only [foldObjects]
      cases hD : DuplicateOneObject A fuel es (hs.getD si 0) r with
      | none => rfl
      | some r1 =>
        simp only
        rw [show ((si : Int) + 1) = ((si + 1 : Nat) : Int) by push_cast; rfl, ih2]

/-- On the 32-bit code, for a non-empty selection `hs` of at most 2147483647
handles that stays the same during the run and fuel above its length, the
callback is the left fold of `DuplicateOneObject` over the non-null handles,
started with the trace `selected=N `: both return the same run, or neither
returns. -/
theorem DoDuplicateCallback_selected_int32 {σ : Type} (fuel : Nat) (es : EDIT_SECTION σ)
    (ctx : DuplicateContext) (h : σ) (hs : List OBJECT_HANDLE)
    (hinfo : es.info = true) (hne : hs ≠ []) (hmax : hs.length ≤ 2147483647)
    (hnum : es.get_selected_object_num h = hs.length)
    (hsel : ∀ (s : σ) (i : Nat), i < hs.length → es.get_selected_object s i = hs.getD i 0)
    (hfuel : hs.length < fuel) :
    DoDuplicateCallback int32 fuel (some es) ctx h =
      foldObjects int32 fuel es (hs.filter (fun o => decide (o ≠ 0)))
        ⟨{ ctx with diagMsg := "selected=" ++ toString (hs.length : Int) ++ " " }, h, []⟩ := by
  have hpos : (hs.length : Int) > 0 := by
    have := List.length_pos.mpr hne
    omega
  simp only [DoDuplicateCallback, hinfo, hnum, hpos, if_true, Bool.true_eq_false, if_false]
  have := selectedLoop_fold int32 fuel es hs
    (fun i hi => wrap32_of_fits _ (by omega) (by omega)) hsel hs.length 0 fuel
    ⟨{ ctx with diagMsg := "selected=" ++ toString (hs.length : Int) ++ " " }, h, []⟩
    (by simp) hfuel
  simpa using this

/-- Scenario A: object on frames 10..50, interval 40, three copies, every
creation accepted. -/
theorem byCount_requests_int32_example :
    ∃ r' : Run Nat, ∃ issued : List CreateCall,
      DuplicateOneObject int32 4 (demoHost (fun _ => false) demoObjects [] 0) 1
        ⟨{ interval := 40, byCount := true, copies := 3 }, 0, []⟩ = some r' ∧
      r'.calls = [] ++ issued ∧
      issued = expectedCalls "a" ⟨2, 10, 50⟩ (max 1 40) 3 ∧
      (issued.length : Int) = 3 ∧
      List.Pairwise (fun x y : CreateCall => x.frame < y.frame) issued ∧
      ((0 : Int) < 3 →
        issued.head?.map CreateCall.frame = some (10 + max 1 40) ∧
        issued.getLast?.map CreateCall.frame = some (10 + max 1 40 * 3)) ∧
      ((3 : Int) = 0 → issued = []) ∧
      r'.ctx.totalCreated = 0 + 3 ∧
      r'.ctx.totalFailed = 0 :=
  byCount_requests_int32 4 (demoHost (fun _ => false) demoObjects [] 0) 1
    ⟨{ interval := 40, byCount := true, copies := 3 }, 0, []⟩ "a"
    (by decide) rfl (by decide) rfl (by decide) (by intro s al l p n; simp [demoHost])
    (by decide)
    (by decide) (by decide) (by decide) (by decide) (by decide) (by decide) (by decide)
    (by decide) (by decide) (by decide)

/-- Scenario B: object on frames 0..10, interval 25, limit frame 60, on a
host that rejects the first request: the candidate frames are 25 and 50 (the
next would be 75). -/
theorem byLimit_requests_int32_example :
    ∃ r' : Run Nat, ∃ issued : List CreateCall, ∃ n : Nat,
      DuplicateOneObject int32 3 (demoHost (fun k => k == 1) demoObjects [] 0) 6
        ⟨{ interval := 25, byCount := false, limitFrame := 60 }, 0, []⟩ = some r' ∧
      r'.calls = [] ++ issued ∧
      issued = expectedCalls "b" ⟨1, 0, 10⟩ (max 1 25) n ∧
      List.Pairwise (fun x y : CreateCall => x.frame < y.frame) issued ∧
      (∀ c ∈ issued, c.frame ≤ 60) ∧
      (∀ c, issued.getLast? = some c → 60 < c.frame + max 1 25) ∧
      60 < 0 + max 1 25 * ((n : Int) + 1) ∧
      ((60 : Int) < 0 + max 1 25 → issued = []) :=
  byLimit_requests_int32 3 (demoHost (fun k => k == 1) demoObjects [] 0) 6
    ⟨{ interval := 25, byCount := false, limitFrame := 60 }, 0, []⟩ "b"
    (by decide) rfl (by decide) rfl rfl (by decide)
    (by decide) (by decide) (by decide) (by decide) (by decide) (by decide) (by decide)
    (by decide) (by decide) (by decide) (by decide)

/-- Five candidates, the host rejects the second request: with `stopOnFail`
two requests, created 1, failed 1; without it five requests, created 4,
failed 1. -/
theorem stop_on_failure_int32_example :
    (∃ r' : Run Nat,
      DuplicateOneObject int32 6 (demoHost (fun k => k == 2) demoObjects [] 0) 1
        ⟨{ interval := 40, byCount := true, copies := 5, stopOnFail := true }, 0, []⟩ = some r' ∧
      r'.calls = [] ++ expectedCalls "a" ⟨2, 10, 50⟩ 40 2 ∧
      r'.ctx.totalCreated = 1 ∧
      r'.ctx.totalFailed = 1) ∧
    (∃ r' : Run Nat,
      DuplicateOneObject int32 6 (demoHost (fun k => k == 2) demoObjects [] 0) 1
        ⟨{ interval := 40, byCount := true, copies := 5, stopOnFail := false }, 0, []⟩ = some r' ∧
      r'.calls = [] ++ expectedCalls "a" ⟨2, 10, 50⟩ 40 5 ∧
      r'.ctx.totalCreated = 4 ∧
      r'.ctx.totalFailed = 1) :=
  stop_on_failure_int32 6 (demoHost (fun k => k == 2) demoObjects [] 0) 1
    ⟨{ interval := 40, byCount := true, copies := 5 }, 0, []⟩ "a" 2
    (by decide) rfl (by decide) (by decide) (by decide) (by decide) (by decide)
    (by decide) (by decide) (by decide) (by decide) (by decide) (by decide)
    (fun _ => by decide) (fun h => absurd h (by decide))

/-- Scenario C: an object with empty alias data (handle 2 of the concrete
host), by limit. -/
theorem missing_payload_int32_example :
    ∃ r' : Run Nat,
      DuplicateOneObject int32 0 (demoHost (fun _ => false) demoObjects [] 0) 2
        ⟨{ interval := 40, byCount := false, limitFrame := 500, diagMsg := "focus=1 " },
          0, []⟩ = some r' ∧
      r'.calls = [] ∧ r'.host = 0 ∧
      r'.ctx.noAlias = 0 + 1 ∧
      r'.ctx.diagMsg = "focus=1 " ++ "[alias=null] " ∧
      r'.ctx.objCount = 0 ∧
      r'.ctx.totalCreated = 0 ∧ r'.ctx.totalFailed = 0 :=
  missing_payload_int32 0 (demoHost (fun _ => false) demoObjects [] 0) 2
    ⟨{ interval := 40, byCount := false, limitFrame := 500, diagMsg := "focus=1 " }, 0, []⟩
    (by decide) (Or.inr rfl)
    (by decide) (by decide) (by decide)

/-- A zero-length object (handle 4 of the concrete host) in a run that has
already counted something. -/
theorem malformed_source_int32_example :
    ∃ r' : Run Nat,
      DuplicateOneObject int32 0 (demoHost (fun _ => false) demoObjects [] 0) 4
        ⟨{ totalCreated := 3, totalFailed := 1, objCount := 2, noAlias := 1,
           diagMsg := "selected=4 " }, 7, []⟩ = some r' ∧
      r'.calls = [] ∧ r'.host = 7 ∧
      r'.ctx.totalCreated = 3 ∧ r'.ctx.totalFailed = 1 ∧
      r'.ctx.objCount = 2 ∧ r'.ctx.noAlias = 1 ∧
      r'.ctx.diagMsg = "selected=4 " ++ "[len=0] " ∧
      r' = ⟨{ totalCreated := 3, totalFailed := 1, objCount := 2, noAlias := 1,
              diagMsg := "selected=4 " ++ "[len=0] " }, 7, []⟩ :=
  malformed_source_int32 0 (demoHost (fun _ => false) demoObjects [] 0) 4
    ⟨{ totalCreated := 3, totalFailed := 1, objCount := 2, noAlias := 1,
       diagMsg := "selected=4 " }, 7, []⟩ (by decide)
    (by decide)

/-! ## The claims -/

/-- C1 on the 32-bit arithmetic of the code, at inputs the dialog can produce.
By count with `copies = 2147483647`, interval 1, the object on frames 0..10 and
a host that accepts every creation (either `stopOnFail` setting): the claimed
frames `1 .. 2147483647` all fit an `int`, yet `DuplicateOneObject` does not
return with any amount of fuel, because `i <= copies` holds for every `int`.
With interval 1000000000 and three copies of the object on frames 10..50 the
third request goes to frame -1294967286 instead of `start + step * 3`. -/
theorem C1_byCount_int32_overflow :
    (∀ (stop : Bool) (fuel : Nat),
      DuplicateOneObject int32 fuel (demoHost (fun _ => false) demoObjects [] 0) 6
        ⟨applyParams 1 true 2147483647 0 stop, 0, []⟩ = none) ∧
    (DuplicateOneObject int32 4 (demoHost (fun _ => false) demoObjects [] 0) 1
        ⟨applyParams 1000000000 true 3 0 false, 0, []⟩).map
        (fun r => (r.calls.map CreateCall.frame, r.ctx.totalCreated)) =
      some ([1000000010, 2000000010, -1294967286], 3) := by
  constructor
  · intro stop fuel
    exact DuplicateOneObject_int32_count_stuck (demoHost (fun _ => false) demoObjects [] 0) 6
      ⟨applyParams 1 true 2147483647 0 stop, 0, []⟩ "b"
      (by show ¬ wrap32 (10 - 0) ≤ 0; decide) rfl (by decide) rfl rfl
      (Or.inr (by intro s al l p n; simp [demoHost])) fuel
  · decide

/-- C2 on the 32-bit arithmetic of the code, `stopOnFail` off, whatever the
host answers. Scenario B's object (frames 0..10) and interval 25 with
`limitFrame = 2147483647`: `DuplicateOneObject` does not return with any amount
of fuel. Interval 1073741824 with `limitFrame = 2000000000`: the only frame
`start + step * i ≤ limitFrame` is 1073741824, yet the run does not return
either; its first three requests (shown by a host that stops it at the third)
go to 1073741824, -2147483648, -1073741824. -/
theorem C2_byLimit_int32_overflow :
    (∀ (rejects : Nat → Bool) (fuel : Nat),
      DuplicateOneObject int32 fuel (demoHost rejects demoObjects [] 0) 6
        ⟨applyParams 25 false 0 2147483647 false, 0, []⟩ = none) ∧
    (∀ (rejects : Nat → Bool) (fuel : Nat),
      DuplicateOneObject int32 fuel (demoHost rejects demoObjects [] 0) 6
        ⟨applyParams 1073741824 false 0 2000000000 false, 0, []⟩ = none) ∧
    (DuplicateOneObject int32 4 (demoHost (fun k => k == 3) demoObjects [] 0) 6
        ⟨applyParams 1073741824 false 0 2000000000 true, 0, []⟩).map
        (fun r => r.calls.map CreateCall.frame) =
      some [1073741824, -2147483648, -1073741824] := by
  refine ⟨?_, ?_, ?_⟩
  · intro rejects fuel
    exact DuplicateOneObject_int32_limit_stuck (demoHost rejects demoObjects [] 0) 6
      ⟨applyParams 25 false 0 2147483647 false, 0, []⟩ "b"
      (by show ¬ wrap32 (10 - 0) ≤ 0; decide) rfl (by decide) rfl rfl
      (fun i => wrap32_le _) fuel
  · intro rejects fuel
    exact DuplicateOneObject_int32_limit_stuck (demoHost rejects demoObjects [] 0) 6
      ⟨applyParams 1073741824 false 0 2000000000 false, 0, []⟩ "b"
      (by show ¬ wrap32 (10 - 0) ≤ 0; decide) rfl (by decide) rfl rfl
      (by
        intro i
        show wrap32 (0 + wrap32 (1073741824 * i)) ≤ 2000000000
        unfold wrap32
        omega) fuel
  · decide

/-- C3 on the 32-bit arithmetic of the code: by count with
`copies = 2147483647`, interval 1, the object on frames 0..10, `stopOnFail` off
and a host whose first rejection is at the first candidate (`k = 1`): the
claim has the run issue all requests and count them, but `DuplicateOneObject`
does not return with any amount of fuel. -/
theorem C3_stop_int32_overflow :
    hostResponses (demoHost (fun k => k == 1) demoObjects [] 0) "b" 1 10
        (candidates 0 1 1 1) 0 = [false] ∧
    ∀ fuel : Nat,
      DuplicateOneObject int32 fuel (demoHost (fun k => k == 1) demoObjects [] 0) 6
        ⟨applyParams 1 true 2147483647 0 false, 0, []⟩ = none := by
  constructor
  · decide
  · intro fuel
    exact DuplicateOneObject_int32_count_stuck (demoHost (fun k => k == 1) demoObjects [] 0) 6
      ⟨applyParams 1 true 2147483647 0 false, 0, []⟩ "b" (by decide) rfl (by decide) rfl rfl
      (Or.inl rfl) fuel

/-- C6 (empty working set): for every request read from the dialog, when the
host reports zero selected objects and no focused object, the callback started
on the freshly reset context returns without issuing a creation request or
touching the host; `totalCreated`, `totalFailed`, `objCount` and `noAlias` are
zero and the trace is `selected=0, focus=none` (no selection, no focus). This
holds for either integer arithmetic and any fuel. -/
theorem C6_empty_working_set {σ : Type} (A : IntArith) (fuel : Nat) (es : EDIT_SECTION σ)
    (gap : Int) (byCount : Bool) (count limit : Int) (stop : Bool) (h : σ)
    (hinfo : es.info = true) (hnum : es.get_selected_object_num h = 0)
    (hfocus : es.get_focus_object h = 0) :
    ∃ res : Run σ,
      DoDuplicateCallback A fuel (some es) (applyParams gap byCount count limit stop) h =
        some res ∧
      res.calls = [] ∧ res.host = h ∧
      res.ctx.totalCreated = 0 ∧ res.ctx.totalFailed = 0 ∧
      res.ctx.objCount = 0 ∧ res.ctx.noAlias = 0 ∧
      res.ctx.diagMsg = "selected=0, focus=none" := by
  refine ⟨⟨{ applyParams gap byCount count limit stop with
    diagMsg := "selected=0, focus=none" }, h, []⟩, ?_, rfl, rfl, rfl, rfl, rfl, rfl, rfl⟩
  simp [DoDuplicateCallback, hinfo, hnum, hfocus]

/-- Scenario D on the 32-bit arithmetic with no fuel at all: empty selection,
no focused object, the dialog defaults `40`, by count, `5`, `1000`. -/
theorem C6_empty_working_set_witness :
    ∃ res : Run Nat,
      DoDuplicateCallback int32 0 (some (demoHost (fun _ => false) demoObjects [] 0))
        (applyParams 40 true 5 1000 false) 0 = some res ∧
      res.calls = [] ∧ res.host = 0 ∧
      res.ctx.totalCreated = 0 ∧ res.ctx.totalFailed = 0 ∧
      res.ctx.objCount = 0 ∧ res.ctx.noAlias = 0 ∧
      res.ctx.diagMsg = "selected=0, focus=none" :=
  C6_empty_working_set int32 0 (demoHost (fun _ => false) demoObjects [] 0) 40 true 5 1000 false 0
    rfl rfl rfl

/-- C9 at the failing input, on the 32-bit arithmetic of the code: by limit
with `limitFrame = 2147483647` (the largest `int`) and `stopOnFail` off, for
the object on frames 10..50 and whatever the host answers,
`DuplicateOneObject` does not return with any amount of fuel: no `int` value of
`newStart` exceeds `limitFrame`. With `stopOnFail` on, an object starting at
frame 2147483646 and a host that rejects the third request, the run returns
after 3 requests although `max 0 (limitFrame - start) = 1`. -/
theorem C9_byLimit_int32_no_return :
    (∀ (rejects : Nat → Bool) (fuel : Nat),
      DuplicateOneObject int32 fuel (demoHost rejects demoObjects [] 0) 1
        ⟨applyParams 40 false 5 2147483647 false, 0, []⟩ = none) ∧
    (DuplicateOneObject int32 4 (demoHost (fun k => k == 3) demoObjects [] 0) 5
        ⟨applyParams 1 false 5 2147483647 true, 0, []⟩).map
        (fun r => r.calls.map CreateCall.frame) =
      some [2147483647, -2147483648, -2147483647] := by
  constructor
  · intro rejects fuel
    have hlen : ¬ int32.norm (50 - 10) ≤ 0 := by decide
    simp only [DuplicateOneObject, demoHost, demoObjects, applyParams]
    simp only [show ((1 : Nat) = 2) = False by decide, if_false,
      show ((1 : Nat) = 3) = False by decide, show ((1 : Nat) = 4) = False by decide,
      show ((1 : Nat) = 5) = False by decide, hlen]
    exact byLimitLoop_int32_stuck _ _ _ _ _ _ _ _ rfl rfl
  · decide

/-- C10 (ByLimit is ByCount with a computed count): over exact integers, for a
source object with `end > start` and a non-empty alias, every interval, limit
frame, `stopOnFail` setting and host, `DuplicateOneObject` by limit issues the
same creation requests, leaves the same host state and produces the same
output members as `DuplicateOneObject` by count with
`copies = max 0 (floor ((limitFrame - start) / step))`, `step = max 1 interval`;
both runs return. -/
theorem C10_byLimit_eq_byCount {σ : Type} (fuel : Nat) (es : EDIT_SECTION σ)
    (obj : OBJECT_HANDLE) (r : Run σ) (a : String)
    (hlen : (es.get_object_layer_frame r.host obj).start <
      (es.get_object_layer_frame r.host obj).«end»)
    (ha : es.get_object_alias r.host obj = some a) (hne : a ≠ "")
    (hfuel : (Int.fdiv (r.ctx.limitFrame - (es.get_object_layer_frame r.host obj).start)
      (max 1 r.ctx.interval)).toNat < fuel) :
    ∃ r1 r2 : Run σ,
      DuplicateOneObject intExact fuel es obj
        { r with ctx := { r.ctx with byCount := false } } = some r1 ∧
      DuplicateOneObject intExact fuel es obj
        { r with ctx := { r.ctx with
            byCount := true
            copies := max 0 (Int.fdiv
              (r.ctx.limitFrame - (es.get_object_layer_frame r.host obj).start)
              (max 1 r.ctx.interval)) } } = some r2 ∧
      r1.calls = r2.calls ∧ r1.host = r2.host ∧ r1.ctx.result = r2.ctx.result := by
  have hfd : Int.fdiv (r.ctx.limitFrame - (es.get_object_layer_frame r.host obj).start)
      (max 1 r.ctx.interval) =
      (r.ctx.limitFrame - (es.get_object_layer_frame r.host obj).start) /
        (max 1 r.ctx.interval) :=
    Int.fdiv_eq_ediv _ (by have := le_max_left (1 : Int) r.ctx.interval; omega)
  rw [hfd] at hfuel ⊢
  have hc1 : candidateCount { r.ctx with byCount := false }
      (es.get_object_layer_frame r.host obj) =
      ((r.ctx.limitFrame - (es.get_object_layer_frame r.host obj).start) /
        (max 1 r.ctx.interval)).toNat := by
    simp [candidateCount]
  have hc2 : candidateCount { r.ctx with
      byCount := true
      copies := max 0 ((r.ctx.limitFrame - (es.get_object_layer_frame r.host obj).start) /
        (max 1 r.ctx.interval)) }
      (es.get_object_layer_frame r.host obj) =
      ((r.ctx.limitFrame - (es.get_object_layer_frame r.host obj).start) /
        (max 1 r.ctx.interval)).toNat := by
    simp only [candidateCount, if_true]
    omega
  have h1 := DuplicateOneObject_exact fuel es obj
    { r with ctx := { r.ctx with byCount := false } } a hlen ha hne (by rw [hc1]; exact hfuel)
  have h2 := DuplicateOneObject_exact fuel es obj
    { r with ctx := { r.ctx with
        byCount := true
        copies := max 0 ((r.ctx.limitFrame - (es.get_object_layer_frame r.host obj).start) /
          (max 1 r.ctx.interval)) } } a hlen ha hne (by rw [hc2]; exact hfuel)
  rw [hc1] at h1
  rw [hc2] at h2
  exact ⟨_, _, h1, h2, rfl, rfl, rfl⟩

/-- Object on frames 10..50, interval 25, limit frame 70: by limit and by
count with `copies = max 0 (floor (60 / 25)) = 2` agree. -/
theorem C10_byLimit_eq_byCount_witness :
    ∃ r1 r2 : Run Nat,
      DuplicateOneObject intExact 3 (demoHost (fun k => k == 1) demoObjects [] 0) 1
        ⟨{ interval := 25, byCount := false, copies := 9, limitFrame := 70, stopOnFail := true },
          0, []⟩ = some r1 ∧
      DuplicateOneObject intExact 3 (demoHost (fun k => k == 1) demoObjects [] 0) 1
        ⟨{ interval := 25, byCount := true, copies := 2, limitFrame := 70, stopOnFail := true },
          0, []⟩ = some r2 ∧
      r1.calls = r2.calls ∧ r1.host = r2.host ∧ r1.ctx.result = r2.ctx.result :=
  C10_byLimit_eq_byCount 3 (demoHost (fun k => k == 1) demoObjects [] 0) 1
    ⟨{ interval := 25, byCount := true, copies := 9, limitFrame := 70, stopOnFail := true },
      0, []⟩ "a" (by decide) rfl (by decide) (by decide)

end DuplicateSelected
